import Mathlib

/-!
Verification of the requisition validation & normalization engine

Shallow embedding of `model/provisioning.go` from the `onmsctl` repository.

Modelling conventions, matching the Go source:

* Each Go `IsValid` method mutates its receiver (default-filling) and returns
  `error`.  Here every validator returns the updated value *paired with* an
  `Option String` (`none` = success, `some msg` = the `fmt.Errorf` message).
  Mutations performed before a failure persist in the returned value, exactly
  as the Go pointer-receiver / shared-slice-backing-array semantics make them
  persist in the caller's tree.
* In Go, all element mutations in the validation loops go through pointers
  into the slice backing array (`&xs[i]`) and therefore persist — with ONE
  exception: `RequisitionInterface.IsValid` iterates its own meta-data with
  `m := intf.MetaData[i]` (a value copy), so normalization of
  interface-attached meta-data is discarded.  The embedding reproduces this
  (`checkMetaDataList` versus `validateMetaDataList`).
* `net.ParseIP`, `net.LookupIP` and the package-level toggle
  `AllowFqdnOnRequisitionedInterfaces` are external collaborators; they are
  threaded through as an explicit environment `NetEnv`.  `LookupIP = none`
  models a lookup error (`err != nil`); `some []` models an empty answer.
* Go iterates `map[string]int` in unspecified order when reporting duplicate
  keys.  The embedding reports the first (in first-occurrence order) key with
  count > 1, which coincides with the Go behaviour whenever at most one key is
  duplicated (the situation in every property considered here).
* `xml.Name` and the `fmt.Printf` trace inside `validateIP` are
  serialization/logging artefacts with no bearing on validation and are
  omitted; unused-but-present data fields (`Location`, `City`, ...) are kept.
-/

/-- The forbidden characters of the Go regular expression `[/\\?:&*'"]`. -/
def forbiddenChars : List Char := ['/', '\\', '?', ':', '&', '*', '\x27', '\x22']

/-- Go `regexp.MatchString` for the pattern `[/\\?:&*'"]`: does `s` contain a
forbidden character?  (Over `s.data` so that concrete instances evaluate in
the kernel.) -/
def hasForbiddenChars (s : String) : Bool :=
  s.data.any (fun c => forbiddenChars.contains c)

/-- The tail every `Invalid characters on ...` message ends with: the Go format
text `:, /, \\, ?, &, *, ', \"` — the full forbidden set, listed. -/
def forbiddenCharsMsgTail : String := ":, /, \\, ?, &, *, \x27, \x22"

/-- Environment standing for the external collaborators of the validator:
the package-level FQDN toggle and the `net` package. -/
structure NetEnv where
  /-- The package-level var `AllowFqdnOnRequisitionedInterfaces`. -/
  AllowFqdnOnRequisitionedInterfaces : Bool
  /-- Whether `net.ParseIP s != nil`: is `s` a literal IPv4/IPv6 address? -/
  ParseIP : String → Bool
  /-- Model of `net.LookupIP`: `none` models `err != nil`; `some l` models the
  resolved addresses (already rendered with `.String()`). -/
  LookupIP : String → Option (List String)

/-- Struct `RequisitionMetaData` — a meta-data entry. -/
structure RequisitionMetaData where
  Key : String := ""
  Value : String := ""
  Context : String := ""
  deriving DecidableEq, Repr

/-- Method `RequisitionMetaData.IsValid` (pointer receiver): defaults `Context` to
`"requisition"` when empty, then requires `Key` and `Value` non-empty. -/
def RequisitionMetaData.IsValid (m : RequisitionMetaData) :
    RequisitionMetaData × Option String :=
  let m := if m.Context = "" then { m with Context := "requisition" } else m
  if m.Key = "" then (m, some ("Meta-data key cannot be empty"))
  else if m.Value = "" then
    (m, some ("Meta-data value for key " ++ m.Key ++ " cannot be empty"))
  else (m, none)

/-- The meta-data loops that go through `&xs[i]` (service, node): mutations
persist; the first error aborts, leaving later entries untouched. -/
def validateMetaDataList :
    List RequisitionMetaData → List RequisitionMetaData × Option String
  | [] => ([], none)
  | m :: rest =>
    let r := m.IsValid
    match r.2 with
    | some err => (r.1 :: rest, some err)
    | none =>
      let rr := validateMetaDataList rest
      (r.1 :: rr.1, rr.2)

/-- The meta-data loop of `RequisitionInterface.IsValid`, which copies each
entry (`m := intf.MetaData[i]`, no `&`): validation runs but normalization is
discarded, so only the error is returned. -/
def checkMetaDataList : List RequisitionMetaData → Option String
  | [] => none
  | m :: rest =>
    match m.IsValid.2 with
    | some err => some err
    | none => checkMetaDataList rest

/-- Struct `RequisitionMonitoredService` — an IP interface monitored service. -/
structure RequisitionMonitoredService where
  Name : String := ""
  MetaData : List RequisitionMetaData := []
  deriving DecidableEq, Repr

/-- Method `RequisitionMonitoredService.IsValid` (value receiver, but the meta-data
slice shares its backing array with the caller, so meta-data normalization
persists). -/
def RequisitionMonitoredService.IsValid (s : RequisitionMonitoredService) :
    RequisitionMonitoredService × Option String :=
  if s.Name = "" then (s, some ("Service name cannot be empty"))
  else if hasForbiddenChars s.Name then
    (s, some ("Invalid characters on service name " ++ s.Name ++ forbiddenCharsMsgTail))
  else
    let r := validateMetaDataList s.MetaData
    ({ s with MetaData := r.1 }, r.2)

/-- Struct `RequisitionAsset` — a requisition node asset field. -/
structure RequisitionAsset where
  Name : String := ""
  Value : String := ""
  deriving DecidableEq, Repr

/-- Method `RequisitionAsset.IsValid` (value receiver, no mutation). -/
def RequisitionAsset.IsValid (a : RequisitionAsset) : Option String :=
  if a.Name = "" then some ("Asset name cannot be empty")
  else if hasForbiddenChars a.Name then
    some ("Invalid characters on asset name " ++ a.Name ++ forbiddenCharsMsgTail)
  else if a.Value = "" then
    some ("Asset value for " ++ a.Name ++ " cannot be empty")
  else none

/-- Struct `RequisitionCategory` — a requisition node category. -/
structure RequisitionCategory where
  Name : String := ""
  deriving DecidableEq, Repr

/-- Method `RequisitionCategory.IsValid` (value receiver, no mutation). -/
def RequisitionCategory.IsValid (c : RequisitionCategory) : Option String :=
  if c.Name = "" then some ("Category name cannot be empty")
  else if hasForbiddenChars c.Name then
    some ("Invalid characters on category name " ++ c.Name ++ forbiddenCharsMsgTail)
  else none

/-- The category loop of `RequisitionNode.IsValid`. -/
def checkCategoryList : List RequisitionCategory → Option String
  | [] => none
  | c :: rest =>
    match c.IsValid with
    | some err => some err
    | none => checkCategoryList rest

/-- The asset loop of `RequisitionNode.IsValid`. -/
def checkAssetList : List RequisitionAsset → Option String
  | [] => none
  | a :: rest =>
    match a.IsValid with
    | some err => some err
    | none => checkAssetList rest

/-- First key (in first-occurrence order) appearing more than once in `l`:
the deterministic rendering of Go's `for k, count := range m { if count > 1 }`
duplicate reporting (identical to Go whenever at most one key is duplicated).
-/
def firstDup (l : List String) : Option String :=
  (l.filter (fun k => 1 < l.count k)).head?

/-- Struct `RequisitionInterface` — an IP interface of a requisition node. -/
structure RequisitionInterface where
  IPAddress : String := ""
  Description : String := ""
  SnmpPrimary : String := ""
  Status : Int := 0
  Services : List RequisitionMonitoredService := []
  MetaData : List RequisitionMetaData := []
  deriving DecidableEq, Repr

/-- Method `RequisitionInterface.validateIP`: literal parse first; otherwise, when
`AllowFqdnOnRequisitionedInterfaces` is set, resolve as a hostname and
overwrite `IPAddress` with the first answer; otherwise fail. -/
def RequisitionInterface.validateIP (env : NetEnv) (intf : RequisitionInterface) :
    RequisitionInterface × Option String :=
  if env.ParseIP intf.IPAddress then (intf, none)
  else if env.AllowFqdnOnRequisitionedInterfaces then
    match env.LookupIP intf.IPAddress with
    | some (a :: _) => ({ intf with IPAddress := a }, none)
    | _ =>
      (intf, some ("Cannot get address from " ++ intf.IPAddress ++ " (invalid IP or FQDN)"))
  else
    (intf, some (intf.IPAddress ++ " is not a valid IPv4 or IPv6 address"))

/-- The service loop of `RequisitionInterface.validateServices` (pointer into
the backing array: service meta-data normalization persists). -/
def validateServiceList :
    List RequisitionMonitoredService → List RequisitionMonitoredService × Option String
  | [] => ([], none)
  | s :: rest =>
    let r := s.IsValid
    match r.2 with
    | some err => (r.1 :: rest, some err)
    | none =>
      let rr := validateServiceList rest
      (r.1 :: rr.1, rr.2)

/-- Method `RequisitionInterface.validateServices`: validate each service, then
report a service name counted more than once (service names are never
mutated, so counting before or after validation is the same). -/
def RequisitionInterface.validateServices (intf : RequisitionInterface) :
    RequisitionInterface × Option String :=
  let r := validateServiceList intf.Services
  let intf' := { intf with Services := r.1 }
  match r.2 with
  | some err => (intf', some err)
  | none =>
    match firstDup (intf.Services.map (fun s => s.Name)) with
    | some sname =>
      (intf', some ("Service " ++ sname ++ " is defined more than once on interface "
        ++ intf.IPAddress))
    | none => (intf', none)

/-- Steps 4–6 of `RequisitionInterface.IsValid` (the part after the three
field checks, factored out verbatim): `validateIP`, `validateServices`, and
the (copying) meta-data loop. -/
def RequisitionInterface.validateTail (env : NetEnv) (intf : RequisitionInterface) :
    RequisitionInterface × Option String :=
  let r := intf.validateIP env
  match r.2 with
  | some err => (r.1, some err)
  | none =>
    let r2 := r.1.validateServices
    match r2.2 with
    | some err => (r2.1, some err)
    | none =>
      match checkMetaDataList r2.1.MetaData with
      | some err => (r2.1, some err)
      | none => (r2.1, none)

/-- Method `RequisitionInterface.IsValid` (pointer receiver): empty-address check,
status defaulting + check, snmp-primary defaulting + check, then
`validateTail` (= `validateIP`, `validateServices`, meta-data loop). -/
def RequisitionInterface.IsValid (env : NetEnv) (intf : RequisitionInterface) :
    RequisitionInterface × Option String :=
  if intf.IPAddress = "" then (intf, some ("IP Address cannot be empty"))
  else
    let intf := if intf.Status = 0 then { intf with Status := 1 } else intf
    if intf.Status ≠ 1 ∧ intf.Status ≠ 3 then
      (intf, some ("Invalid status for interface " ++ intf.IPAddress ++ ": "
        ++ toString intf.Status))
    else
      let intf := if intf.SnmpPrimary = "" then { intf with SnmpPrimary := "N" } else intf
      if intf.SnmpPrimary ≠ "P" ∧ intf.SnmpPrimary ≠ "S" ∧ intf.SnmpPrimary ≠ "N" then
        (intf, some ("Invalid snmp-primary for interface " ++ intf.IPAddress ++ ": "
          ++ intf.SnmpPrimary))
      else
        intf.validateTail env

/-- Struct `RequisitionNode` — a requisitioned node. -/
structure RequisitionNode where
  NodeLabel : String := ""
  ForeignID : String := ""
  Location : String := ""
  City : String := ""
  Building : String := ""
  ParentForeignSource : String := ""
  ParentForeignID : String := ""
  ParentNodeLabel : String := ""
  Interfaces : List RequisitionInterface := []
  Categories : List RequisitionCategory := []
  Assets : List RequisitionAsset := []
  MetaData : List RequisitionMetaData := []
  deriving DecidableEq, Repr

/-- The interface loop of `RequisitionNode.validateInterfaces`: each address
is recorded in `intfMap` and the `"P"` flag counted BEFORE the interface is
validated (so before resolution rewrites `IPAddress` and before the
snmp-primary default); the first invalid interface aborts. -/
def validateInterfaceList (env : NetEnv) :
    List RequisitionInterface → List RequisitionInterface × Option String
  | [] => ([], none)
  | i :: rest =>
    let r := i.IsValid env
    match r.2 with
    | some err => (r.1 :: rest, some err)
    | none =>
      let rr := validateInterfaceList env rest
      (r.1 :: rr.1, rr.2)

/-- Method `RequisitionNode.validateInterfaces`: validate every interface (recording
pre-validation addresses and primary flags), then the primary-count check,
then the duplicate-address check. -/
def RequisitionNode.validateInterfaces (env : NetEnv) (n : RequisitionNode) :
    RequisitionNode × Option String :=
  let r := validateInterfaceList env n.Interfaces
  let n' := { n with Interfaces := r.1 }
  match r.2 with
  | some err => (n', some err)
  | none =>
    if 1 < (n.Interfaces.filter (fun i => i.SnmpPrimary = "P")).length then
      (n', some ("Node " ++ n.NodeLabel ++ " cannot have more than one primary interface"))
    else
      match firstDup (n.Interfaces.map (fun i => i.IPAddress)) with
      | some ipAddr =>
        (n', some ("IP Address " ++ ipAddr ++ " is defined more than once on node "
          ++ n.NodeLabel))
      | none => (n', none)

/-- The tail of `RequisitionNode.IsValid` (the part after the foreign-ID,
label-defaulting and parent checks, factored out verbatim): interfaces,
categories, assets and meta-data. -/
def RequisitionNode.validateTail (env : NetEnv) (n : RequisitionNode) :
    RequisitionNode × Option String :=
  let r := n.validateInterfaces env
  match r.2 with
  | some err => (r.1, some err)
  | none =>
    match checkCategoryList r.1.Categories with
    | some err => (r.1, some err)
    | none =>
      match checkAssetList r.1.Assets with
      | some err => (r.1, some err)
      | none =>
        let rm := validateMetaDataList r.1.MetaData
        ({ r.1 with MetaData := rm.1 }, rm.2)

/-- Method `RequisitionNode.IsValid` (pointer receiver): foreign-ID checks, label
defaulting, parent mutual-exclusion and self-reference checks, then
`validateTail` (= interfaces, categories, assets and meta-data). -/
def RequisitionNode.IsValid (env : NetEnv) (n : RequisitionNode) :
    RequisitionNode × Option String :=
  if n.ForeignID = "" then (n, some ("Foreign ID cannot be empty"))
  else if hasForbiddenChars n.ForeignID then
    (n, some ("Invalid characters on Foreign ID " ++ n.ForeignID ++ forbiddenCharsMsgTail))
  else
    let n := if n.NodeLabel = "" then { n with NodeLabel := n.ForeignID } else n
    if n.ParentForeignID ≠ "" ∧ n.ParentNodeLabel ≠ "" then
      (n, some ("Cannot set both parent foreign ID and parent node label on node "
        ++ n.NodeLabel ++ ", choose one"))
    else if n.ParentNodeLabel = n.NodeLabel then
      (n, some ("The parent node cannot be the node itself. The parent-nodel-label has to be different than the node-label"))
    else if n.ParentForeignID = n.ForeignID then
      (n, some ("The parent node cannot be the node itself. The parent-foreign-id has to be different than the foreign-id"))
    else
      n.validateTail env

/-- Struct `Requisition` — a requisition or set of nodes (`DateStamp`/`LastImport`
are timestamps never touched by validation). -/
structure Requisition where
  DateStamp : Option String := none
  LastImport : Option String := none
  Name : String := ""
  Nodes : List RequisitionNode := []
  deriving DecidableEq, Repr

/-- The node loop of `Requisition.IsValid`: foreign IDs are recorded before
validation (they are never mutated); a node failure is wrapped with the
node's label — read AFTER its validation, hence possibly defaulted — and the
requisition name. -/
def validateNodeList (env : NetEnv) (reqName : String) :
    List RequisitionNode → List RequisitionNode × Option String
  | [] => ([], none)
  | n :: rest =>
    let r := n.IsValid env
    match r.2 with
    | some err =>
      (r.1 :: rest, some ("Problem on node " ++ r.1.NodeLabel ++ " on requisition "
        ++ reqName ++ ": " ++ err))
    | none =>
      let rr := validateNodeList env reqName rest
      (r.1 :: rr.1, rr.2)

/-- Method `Requisition.IsValid` (value receiver; node mutations persist through the
shared backing array): name checks, node loop with error wrapping, then the
duplicate foreign-ID check. -/
def Requisition.IsValid (env : NetEnv) (r : Requisition) :
    Requisition × Option String :=
  if r.Name = "" then (r, some ("Requisition name cannot be empty"))
  else if hasForbiddenChars r.Name then
    (r, some ("Invalid characters on requisition name " ++ r.Name ++ forbiddenCharsMsgTail))
  else
    let rl := validateNodeList env r.Name r.Nodes
    let r' := { r with Nodes := rl.1 }
    match rl.2 with
    | some err => (r', some err)
    | none =>
      match firstDup (r.Nodes.map (fun n => n.ForeignID)) with
      | some fid =>
        (r', some ("Duplicate Foreign ID " ++ fid ++ " on requisition " ++ r.Name))
      | none => (r', none)

/-- Split a character list at every `'.'`. -/
def splitDots : List Char → List (List Char)
  | [] => [[]]
  | c :: rest =>
    if c = '.' then [] :: splitDots rest
    else
      match splitDots rest with
      | p :: ps => (c :: p) :: ps
      | [] => [[c]]

/-- One decimal field of a dotted quad: 1–3 digits, value ≤ 255, no leading
zero. -/
def isOctet (p : List Char) : Bool :=
  0 < p.length && p.length ≤ 3 && p.all Char.isDigit &&
  (p.length = 1 || p.head? ≠ some '0') &&
  p.foldl (fun n c => n * 10 + (c.toNat - 48)) 0 ≤ 255

/-- A dotted-quad IPv4 literal, modelling the IPv4 half of Go `net.ParseIP`
(four decimal fields, each 0–255, no leading zeros), used to instantiate
`NetEnv.ParseIP` on concrete scenarios. -/
def isIPv4Literal (s : String) : Bool :=
  let parts := splitDots s.data
  parts.length = 4 && parts.all isOctet

/-- A concrete environment: FQDN resolution disabled, no resolver answers. -/
def envNoFqdn : NetEnv :=
  { AllowFqdnOnRequisitionedInterfaces := false
    ParseIP := isIPv4Literal
    LookupIP := fun _ => none }

/-- A concrete environment: FQDN resolution enabled, the resolver knows only
the host `"www.opennms.org"`, answering `10.1.2.3`. -/
def envFqdn : NetEnv :=
  { AllowFqdnOnRequisitionedInterfaces := true
    ParseIP := isIPv4Literal
    LookupIP := fun s => if s = "www.opennms.org" then some ["10.1.2.3"] else none }

/-! ## Normalization as a pure function

On a successful validation the in-place mutations amount to a pure
normalization of the tree; the following functions state it.  Note that
`normIntf` leaves the interface-attached `MetaData` untouched: the Go loop at
the end of `RequisitionInterface.IsValid` iterates over value copies. -/

/-- Context defaulting of a meta-data entry. -/
def normMeta (m : RequisitionMetaData) : RequisitionMetaData :=
  { m with Context := if m.Context = "" then "requisition" else m.Context }

/-- Normalization of a service: its meta-data contexts are defaulted. -/
def normService (s : RequisitionMonitoredService) : RequisitionMonitoredService :=
  { s with MetaData := s.MetaData.map normMeta }

/-- The address an interface ends up with after a successful `validateIP`:
unchanged if literal, otherwise the first resolver answer. -/
def resolvedIP (env : NetEnv) (s : String) : String :=
  if env.ParseIP s then s
  else
    match env.LookupIP s with
    | some (a :: _) => a
    | _ => s

/-- The status/snmp-primary defaulting performed by the field checks of
`RequisitionInterface.IsValid`. -/
def normFields (i : RequisitionInterface) : RequisitionInterface :=
  { i with Status := if i.Status = 0 then 1 else i.Status
           SnmpPrimary := if i.SnmpPrimary = "" then "N" else i.SnmpPrimary }

/-- Normalization of an interface on successful validation. -/
def normIntf (env : NetEnv) (i : RequisitionInterface) : RequisitionInterface :=
  { i with Status := if i.Status = 0 then 1 else i.Status
           SnmpPrimary := if i.SnmpPrimary = "" then "N" else i.SnmpPrimary
           IPAddress := resolvedIP env i.IPAddress
           Services := i.Services.map normService }

/-- The node-label defaulting performed by `RequisitionNode.IsValid`. -/
def normLabel (n : RequisitionNode) : RequisitionNode :=
  { n with NodeLabel := if n.NodeLabel = "" then n.ForeignID else n.NodeLabel }

/-- Normalization of a node on successful validation. -/
def normNode (env : NetEnv) (n : RequisitionNode) : RequisitionNode :=
  { n with NodeLabel := if n.NodeLabel = "" then n.ForeignID else n.NodeLabel
           Interfaces := n.Interfaces.map (normIntf env)
           MetaData := n.MetaData.map normMeta }

/-- Normalization of a requisition on successful validation. -/
def normReq (env : NetEnv) (r : Requisition) : Requisition :=
  { r with Nodes := r.Nodes.map (normNode env) }

/-! ## Spec-side validity predicates

Transcribed from the specification's data-model invariants (spec §3, §4):
"field values are all valid".  These are the comparison points for the
refinement-style claims; everything else in this file is translated from the
Go source. -/

/-- Spec §3: meta-data key and value non-empty. -/
def SpecMetaOK (m : RequisitionMetaData) : Prop :=
  m.Key ≠ "" ∧ m.Value ≠ ""

instance (m : RequisitionMetaData) : Decidable (SpecMetaOK m) := by
  unfold SpecMetaOK; infer_instance

/-- Spec §3: service name non-empty, character-clean, meta-data valid. -/
def SpecServiceOK (s : RequisitionMonitoredService) : Prop :=
  s.Name ≠ "" ∧ hasForbiddenChars s.Name = false ∧ ∀ m ∈ s.MetaData, SpecMetaOK m

instance (s : RequisitionMonitoredService) : Decidable (SpecServiceOK s) := by
  unfold SpecServiceOK; infer_instance

/-- Spec §3: category name non-empty and character-clean. -/
def SpecCategoryOK (c : RequisitionCategory) : Prop :=
  c.Name ≠ "" ∧ hasForbiddenChars c.Name = false

instance (c : RequisitionCategory) : Decidable (SpecCategoryOK c) := by
  unfold SpecCategoryOK; infer_instance

/-- Spec §3: asset name non-empty and character-clean, value non-empty. -/
def SpecAssetOK (a : RequisitionAsset) : Prop :=
  a.Name ≠ "" ∧ hasForbiddenChars a.Name = false ∧ a.Value ≠ ""

instance (a : RequisitionAsset) : Decidable (SpecAssetOK a) := by
  unfold SpecAssetOK; infer_instance

/-- Spec §4.2 step 4: the address is literal, or resolution is permitted and
the resolver answers with at least one address. -/
def ResolvableIP (env : NetEnv) (s : String) : Prop :=
  env.ParseIP s = true ∨
    (env.AllowFqdnOnRequisitionedInterfaces = true ∧
      ∃ a rest, env.LookupIP s = some (a :: rest))

instance (env : NetEnv) (s : String) : Decidable (ResolvableIP env s) := by
  unfold ResolvableIP
  rcases h : env.LookupIP s with - | l
  · exact decidable_of_iff (env.ParseIP s = true) (by simp [h])
  · rcases l with - | ⟨a, rest⟩
    · exact decidable_of_iff (env.ParseIP s = true) (by simp [h])
    · exact decidable_of_iff
        (env.ParseIP s = true ∨ env.AllowFqdnOnRequisitionedInterfaces = true)
        (by simp [h])

/-- Spec §3/§4.2: interface field validity (address non-empty and resolvable,
status in {0,1,3} before defaulting, snmp-primary in {"",P,S,N} before
defaulting, services valid with unique names, meta-data valid). -/
def SpecIntfOK (env : NetEnv) (i : RequisitionInterface) : Prop :=
  i.IPAddress ≠ "" ∧
  (i.Status = 0 ∨ i.Status = 1 ∨ i.Status = 3) ∧
  (i.SnmpPrimary = "" ∨ i.SnmpPrimary = "P" ∨ i.SnmpPrimary = "S" ∨ i.SnmpPrimary = "N") ∧
  ResolvableIP env i.IPAddress ∧
  (∀ s ∈ i.Services, SpecServiceOK s) ∧
  firstDup (i.Services.map (fun s => s.Name)) = none ∧
  ∀ m ∈ i.MetaData, SpecMetaOK m

instance (env : NetEnv) (i : RequisitionInterface) : Decidable (SpecIntfOK env i) := by
  unfold SpecIntfOK; infer_instance

/-- Spec §3/§4.3: node validity (foreign ID non-empty and clean, parent
references exclusive and not self-referential, interfaces valid with at most
one primary and unique as-supplied addresses, categories/assets/meta-data
valid). -/
def SpecNodeOK (env : NetEnv) (n : RequisitionNode) : Prop :=
  n.ForeignID ≠ "" ∧
  hasForbiddenChars n.ForeignID = false ∧
  ¬(n.ParentForeignID ≠ "" ∧ n.ParentNodeLabel ≠ "") ∧
  n.ParentNodeLabel ≠ (if n.NodeLabel = "" then n.ForeignID else n.NodeLabel) ∧
  n.ParentForeignID ≠ n.ForeignID ∧
  (∀ i ∈ n.Interfaces, SpecIntfOK env i) ∧
  (n.Interfaces.filter (fun i => i.SnmpPrimary = "P")).length ≤ 1 ∧
  firstDup (n.Interfaces.map (fun i => i.IPAddress)) = none ∧
  (∀ c ∈ n.Categories, SpecCategoryOK c) ∧
  (∀ a ∈ n.Assets, SpecAssetOK a) ∧
  ∀ m ∈ n.MetaData, SpecMetaOK m

instance (env : NetEnv) (n : RequisitionNode) : Decidable (SpecNodeOK env n) := by
  unfold SpecNodeOK; infer_instance

/-- Spec §3/§4.4: requisition validity (name non-empty and clean, nodes valid
with unique foreign IDs). -/
def SpecReqOK (env : NetEnv) (r : Requisition) : Prop :=
  r.Name ≠ "" ∧
  hasForbiddenChars r.Name = false ∧
  (∀ n ∈ r.Nodes, SpecNodeOK env n) ∧
  firstDup (r.Nodes.map (fun n => n.ForeignID)) = none

instance (env : NetEnv) (r : Requisition) : Decidable (SpecReqOK env r) := by
  unfold SpecReqOK; infer_instance

/-! ## Concrete scenario inputs -/

/-- The spec's scenario requisition
`{name:"Test", nodes:[{foreignID:"n1", interfaces:[{ipAddress:"10.0.0.1"}]}]}`. -/
def testReq : Requisition :=
  { Name := "Test"
    Nodes := [{ ForeignID := "n1", Interfaces := [{ IPAddress := "10.0.0.1" }] }] }

/-- The scenario requisition with one meta-data entry (empty context) attached
directly to the interface. -/
def testReqIntfMeta : Requisition :=
  { Name := "Test"
    Nodes := [{ ForeignID := "n1"
                Interfaces := [{ IPAddress := "10.0.0.1"
                                 MetaData := [{ Key := "k", Value := "v" }] }] }] }

/-- The spec's duplicate-address scenario:
`interfaces:[{ipAddress:"10.0.0.1"},{ipAddress:"10.0.0.1"}]` under `"n1"`. -/
def testReqDupIP : Requisition :=
  { Name := "Test"
    Nodes := [{ ForeignID := "n1"
                Interfaces := [{ IPAddress := "10.0.0.1" }, { IPAddress := "10.0.0.1" }] }] }

/-- A requisition with two nodes sharing `foreignID="n1"`. -/
def testReqDupFID : Requisition :=
  { Name := "Test", Nodes := [{ ForeignID := "n1" }, { ForeignID := "n1" }] }

/-- An environment whose resolver knows two distinct hostnames answering the
same literal address. -/
def envTwoHosts : NetEnv :=
  { AllowFqdnOnRequisitionedInterfaces := true
    ParseIP := isIPv4Literal
    LookupIP := fun s =>
      if s = "a.example" ∨ s = "b.example" then some ["10.9.9.9"] else none }

/-! ## Level lemmas: meta-data -/

theorem metaIsValid_fst (m : RequisitionMetaData) : m.IsValid.1 = normMeta m := by
  cases m with
  | mk k v c =>
    by_cases hc : c = "" <;> by_cases hk : k = "" <;> by_cases hv : v = "" <;>
      simp [RequisitionMetaData.IsValid, normMeta, hc, hk, hv]

theorem metaIsValid_none_iff (m : RequisitionMetaData) :
    m.IsValid.2 = none ↔ SpecMetaOK m := by
  by_cases hc : m.Context = "" <;> by_cases hk : m.Key = "" <;>
    by_cases hv : m.Value = "" <;>
      simp [RequisitionMetaData.IsValid, SpecMetaOK, hc, hk, hv]

theorem metaIsValid_eq_of_ok (m : RequisitionMetaData) (h : SpecMetaOK m) :
    m.IsValid = (normMeta m, none) := by
  have h2 := (metaIsValid_none_iff m).mpr h
  have h1 := metaIsValid_fst m
  exact Prod.ext h1 h2

theorem validateMetaDataList_none_iff (l : List RequisitionMetaData) :
    (validateMetaDataList l).2 = none ↔ ∀ m ∈ l, SpecMetaOK m := by
  induction l with
  | nil => simp [validateMetaDataList]
  | cons m rest ih =>
    rcases hm : m.IsValid with ⟨m1, e⟩
    have hiff := metaIsValid_none_iff m
    rw [hm] at hiff
    cases e with
    | none =>
      simp only [validateMetaDataList, hm]
      simp [ih, hiff.mp rfl]
    | some err =>
      simp only [validateMetaDataList, hm]
      simp only [Option.some_ne_none, false_iff]
      intro hall
      have hcontra := hiff.mpr (hall m (by simp))
      simp at hcontra

theorem validateMetaDataList_eq_of_ok (l : List RequisitionMetaData)
    (h : ∀ m ∈ l, SpecMetaOK m) :
    validateMetaDataList l = (l.map normMeta, none) := by
  induction l with
  | nil => simp [validateMetaDataList]
  | cons m rest ih =>
    have hm := metaIsValid_eq_of_ok m (h m (by simp))
    simp only [validateMetaDataList, hm]
    simp [ih (fun x hx => h x (by simp [hx]))]

theorem checkMetaDataList_none_iff (l : List RequisitionMetaData) :
    checkMetaDataList l = none ↔ ∀ m ∈ l, SpecMetaOK m := by
  induction l with
  | nil => simp [checkMetaDataList]
  | cons m rest ih =>
    rcases hm : m.IsValid with ⟨m1, e⟩
    have hiff := metaIsValid_none_iff m
    rw [hm] at hiff
    cases e with
    | none =>
      simp only [checkMetaDataList, hm]
      simp [ih, hiff.mp rfl]
    | some err =>
      simp only [checkMetaDataList, hm]
      simp only [Option.some_ne_none, false_iff]
      intro hall
      have hcontra := hiff.mpr (hall m (by simp))
      simp at hcontra

/-! ## Level lemmas: services -/

theorem svcIsValid_none_iff (s : RequisitionMonitoredService) :
    s.IsValid.2 = none ↔ SpecServiceOK s := by
  by_cases h1 : s.Name = "" <;> by_cases h2 : hasForbiddenChars s.Name = true <;>
    simp [RequisitionMonitoredService.IsValid, SpecServiceOK, h1, h2,
      validateMetaDataList_none_iff]

theorem svcIsValid_eq_of_ok (s : RequisitionMonitoredService) (h : SpecServiceOK s) :
    s.IsValid = (normService s, none) := by
  obtain ⟨h1, h2, h3⟩ := h
  simp [RequisitionMonitoredService.IsValid, h1, h2,
    validateMetaDataList_eq_of_ok s.MetaData h3, normService]

theorem validateServiceList_none_iff (l : List RequisitionMonitoredService) :
    (validateServiceList l).2 = none ↔ ∀ s ∈ l, SpecServiceOK s := by
  induction l with
  | nil => simp [validateServiceList]
  | cons s rest ih =>
    rcases hs : s.IsValid with ⟨s1, e⟩
    have hiff := svcIsValid_none_iff s
    rw [hs] at hiff
    cases e with
    | none =>
      simp only [validateServiceList, hs]
      simp [ih, hiff.mp rfl]
    | some err =>
      simp only [validateServiceList, hs]
      simp only [Option.some_ne_none, false_iff]
      intro hall
      have hcontra := hiff.mpr (hall s (by simp))
      simp at hcontra

theorem validateServiceList_eq_of_ok (l : List RequisitionMonitoredService)
    (h : ∀ s ∈ l, SpecServiceOK s) :
    validateServiceList l = (l.map normService, none) := by
  induction l with
  | nil => simp [validateServiceList]
  | cons s rest ih =>
    have hs := svcIsValid_eq_of_ok s (h s (by simp))
    simp only [validateServiceList, hs]
    simp [ih (fun x hx => h x (by simp [hx]))]

/-! ## Level lemmas: interfaces -/

theorem validateIP_none_iff (env : NetEnv) (i : RequisitionInterface) :
    (i.validateIP env).2 = none ↔ ResolvableIP env i.IPAddress := by
  rw [RequisitionInterface.validateIP, ResolvableIP]
  by_cases hp : env.ParseIP i.IPAddress = true
  · simp [hp]
  · by_cases hf : env.AllowFqdnOnRequisitionedInterfaces = true
    · rcases hl : env.LookupIP i.IPAddress with - | l
      · simp [hp, hf, hl]
      · rcases l with - | ⟨a, rest⟩ <;> simp [hp, hf, hl]
    · simp [hp, hf]

theorem validateIP_eq_of_resolvable (env : NetEnv) (i : RequisitionInterface)
    (h : ResolvableIP env i.IPAddress) :
    i.validateIP env = ({ i with IPAddress := resolvedIP env i.IPAddress }, none) := by
  rw [RequisitionInterface.validateIP, resolvedIP]
  by_cases hp : env.ParseIP i.IPAddress = true
  · simp [hp]
  · rcases h with h | ⟨hf, a, rest, hl⟩
    · exact absurd h hp
    · simp [hp, hf, hl]

theorem validateServices_none_iff (i : RequisitionInterface) :
    (i.validateServices).2 = none ↔
      (∀ s ∈ i.Services, SpecServiceOK s) ∧
      firstDup (i.Services.map (fun s => s.Name)) = none := by
  rw [RequisitionInterface.validateServices]
  rcases hl : validateServiceList i.Services with ⟨l1, e⟩
  have hiff := validateServiceList_none_iff i.Services
  rw [hl] at hiff
  cases e with
  | none =>
    simp only []
    rcases hd : firstDup (i.Services.map (fun s => s.Name)) with - | sname
    · simp [hd]
      exact hiff.mp rfl
    · simp only [hd]
      simp [hiff.mp rfl]
  | some err =>
    simp only []
    simp only [Option.some_ne_none, false_iff]
    intro hc
    have := hiff.mpr hc.1
    simp at this

theorem validateServices_eq_of_ok (i : RequisitionInterface)
    (h1 : ∀ s ∈ i.Services, SpecServiceOK s)
    (h2 : firstDup (i.Services.map (fun s => s.Name)) = none) :
    i.validateServices = ({ i with Services := i.Services.map normService }, none) := by
  rw [RequisitionInterface.validateServices]
  rw [validateServiceList_eq_of_ok i.Services h1]
  simp [h2]

theorem validateTail_none_iff (env : NetEnv) (i : RequisitionInterface) :
    (i.validateTail env).2 = none ↔
      ResolvableIP env i.IPAddress ∧
      (∀ s ∈ i.Services, SpecServiceOK s) ∧
      firstDup (i.Services.map (fun s => s.Name)) = none ∧
      (∀ m ∈ i.MetaData, SpecMetaOK m) := by
  rw [RequisitionInterface.validateTail]
  by_cases hres : ResolvableIP env i.IPAddress
  · rw [validateIP_eq_of_resolvable env i hres]
    simp only []
    by_cases hsvc : (∀ s ∈ i.Services, SpecServiceOK s) ∧
        firstDup (i.Services.map (fun s => s.Name)) = none
    · have := validateServices_eq_of_ok { i with IPAddress := resolvedIP env i.IPAddress }
        (by simpa using hsvc.1) (by simpa using hsvc.2)
      rw [this]
      simp only []
      rcases hmd : checkMetaDataList i.MetaData with - | err
      · have hmd' := (checkMetaDataList_none_iff i.MetaData).mp hmd
        simp only [hmd]
        simp [hres, hsvc.2]
        exact ⟨hsvc.1, hmd'⟩
      · have hmd' : ¬ ∀ m ∈ i.MetaData, SpecMetaOK m := by
          intro hall
          rw [(checkMetaDataList_none_iff i.MetaData).mpr hall] at hmd
          exact Option.noConfusion hmd
        simp [hmd, hmd']
    · rcases he : ({ i with IPAddress := resolvedIP env i.IPAddress} :
          RequisitionInterface).validateServices with ⟨i2, e⟩
      have hiff := validateServices_none_iff
        ({ i with IPAddress := resolvedIP env i.IPAddress} : RequisitionInterface)
      rw [he] at hiff
      simp only [] at hiff
      cases e with
      | none =>
        exact absurd (by simpa using hiff.mp rfl) hsvc
      | some err =>
        simp only [he]
        simp only [Option.some_ne_none, false_iff]
        intro hc
        exact hsvc ⟨hc.2.1, hc.2.2.1⟩
  · rcases he : i.validateIP env with ⟨i1, e⟩
    have hiff := validateIP_none_iff env i
    rw [he] at hiff
    cases e with
    | none => exact absurd (hiff.mp rfl) hres
    | some err =>
      simp only [he]
      simp only [Option.some_ne_none, false_iff]
      intro hc
      exact hres hc.1

theorem validateTail_eq_of_ok (env : NetEnv) (i : RequisitionInterface)
    (h1 : ResolvableIP env i.IPAddress)
    (h2 : ∀ s ∈ i.Services, SpecServiceOK s)
    (h3 : firstDup (i.Services.map (fun s => s.Name)) = none)
    (h4 : ∀ m ∈ i.MetaData, SpecMetaOK m) :
    i.validateTail env =
      ({ i with IPAddress := resolvedIP env i.IPAddress
                Services := i.Services.map normService }, none) := by
  rw [RequisitionInterface.validateTail]
  rw [validateIP_eq_of_resolvable env i h1]
  simp only []
  rw [validateServices_eq_of_ok { i with IPAddress := resolvedIP env i.IPAddress }
    (by simpa using h2) (by simpa using h3)]
  simp only []
  rw [(checkMetaDataList_none_iff i.MetaData).mpr h4]

theorem intfIsValid_eq_tail (env : NetEnv) (i : RequisitionInterface)
    (h1 : i.IPAddress ≠ "")
    (h2 : i.Status = 0 ∨ i.Status = 1 ∨ i.Status = 3)
    (h3 : i.SnmpPrimary = "" ∨ i.SnmpPrimary = "P" ∨ i.SnmpPrimary = "S" ∨
      i.SnmpPrimary = "N") :
    i.IsValid env = (normFields i).validateTail env := by
  obtain ⟨ip, d, sp, st, sv, md⟩ := i
  simp only at h1 h2 h3
  rw [RequisitionInterface.IsValid, normFields]
  rcases h2 with h2 | h2 | h2 <;> rcases h3 with h3 | h3 | h3 | h3 <;>
    subst h2 <;> subst h3 <;> simp [h1]

theorem intfIsValid_none_iff (env : NetEnv) (i : RequisitionInterface) :
    (i.IsValid env).2 = none ↔ SpecIntfOK env i := by
  by_cases h1 : i.IPAddress = ""
  · rw [RequisitionInterface.IsValid]
    simp [h1, SpecIntfOK]
  · by_cases h2 : i.Status = 0 ∨ i.Status = 1 ∨ i.Status = 3
    · by_cases h3 : i.SnmpPrimary = "" ∨ i.SnmpPrimary = "P" ∨ i.SnmpPrimary = "S" ∨
          i.SnmpPrimary = "N"
      · rw [intfIsValid_eq_tail env i h1 h2 h3, validateTail_none_iff]
        simp only [normFields]
        simp [SpecIntfOK, h1, h2, h3]
      · push_neg at h3
        obtain ⟨h3e, h3p, h3s, h3n⟩ := h3
        rw [RequisitionInterface.IsValid]
        rcases h2 with h2 | h2 | h2 <;>
          simp [SpecIntfOK, h1, h2, h3e, h3p, h3s, h3n]
    · push_neg at h2
      obtain ⟨h20, h21, h23⟩ := h2
      rw [RequisitionInterface.IsValid]
      simp [SpecIntfOK, h1, h20, h21, h23]

theorem intfIsValid_eq_of_ok (env : NetEnv) (i : RequisitionInterface)
    (h : SpecIntfOK env i) :
    i.IsValid env = (normIntf env i, none) := by
  obtain ⟨h1, h2, h3, h4, h5, h6, h7⟩ := h
  rw [intfIsValid_eq_tail env i h1 h2 h3]
  rw [validateTail_eq_of_ok env (normFields i) (by simpa [normFields] using h4)
    (by simpa [normFields] using h5) (by simpa [normFields] using h6)
    (by simpa [normFields] using h7)]
  simp [normFields, normIntf]

/-! ## Level lemmas: categories and assets -/

theorem catIsValid_none_iff (c : RequisitionCategory) :
    c.IsValid = none ↔ SpecCategoryOK c := by
  by_cases h1 : c.Name = "" <;> by_cases h2 : hasForbiddenChars c.Name = true <;>
    simp [RequisitionCategory.IsValid, SpecCategoryOK, h1, h2]

theorem assetIsValid_none_iff (a : RequisitionAsset) :
    a.IsValid = none ↔ SpecAssetOK a := by
  by_cases h1 : a.Name = "" <;> by_cases h2 : hasForbiddenChars a.Name = true <;>
    by_cases h3 : a.Value = "" <;>
      simp [RequisitionAsset.IsValid, SpecAssetOK, h1, h2, h3]

theorem checkCategoryList_none_iff (l : List RequisitionCategory) :
    checkCategoryList l = none ↔ ∀ c ∈ l, SpecCategoryOK c := by
  induction l with
  | nil => simp [checkCategoryList]
  | cons c rest ih =>
    cases hc : c.IsValid with
    | none =>
      have hok := (catIsValid_none_iff c).mp hc
      simp [checkCategoryList, hc, ih, hok]
    | some err =>
      have hnc : ¬ SpecCategoryOK c := by
        intro hok
        rw [(catIsValid_none_iff c).mpr hok] at hc
        exact Option.noConfusion hc
      simp only [checkCategoryList, hc, Option.some_ne_none, false_iff]
      intro hall
      exact hnc (hall c (by simp))

theorem checkAssetList_none_iff (l : List RequisitionAsset) :
    checkAssetList l = none ↔ ∀ a ∈ l, SpecAssetOK a := by
  induction l with
  | nil => simp [checkAssetList]
  | cons a rest ih =>
    cases ha : a.IsValid with
    | none =>
      have hok := (assetIsValid_none_iff a).mp ha
      simp [checkAssetList, ha, ih, hok]
    | some err =>
      have hna : ¬ SpecAssetOK a := by
        intro hok
        rw [(assetIsValid_none_iff a).mpr hok] at ha
        exact Option.noConfusion ha
      simp only [checkAssetList, ha, Option.some_ne_none, false_iff]
      intro hall
      exact hna (hall a (by simp))

/-! ## Level lemmas: the interface loop of a node -/

theorem validateInterfaceList_none_iff (env : NetEnv) (l : List RequisitionInterface) :
    (validateInterfaceList env l).2 = none ↔ ∀ i ∈ l, SpecIntfOK env i := by
  induction l with
  | nil => simp [validateInterfaceList]
  | cons i rest ih =>
    rcases hi : i.IsValid env with ⟨i1, e⟩
    have hiff := intfIsValid_none_iff env i
    rw [hi] at hiff
    cases e with
    | none =>
      simp only [validateInterfaceList, hi]
      simp [ih, hiff.mp rfl]
    | some err =>
      simp only [validateInterfaceList, hi]
      simp only [Option.some_ne_none, false_iff]
      intro hall
      have hcontra := hiff.mpr (hall i (by simp))
      simp at hcontra

theorem validateInterfaceList_eq_of_ok (env : NetEnv) (l : List RequisitionInterface)
    (h : ∀ i ∈ l, SpecIntfOK env i) :
    validateInterfaceList env l = (l.map (normIntf env), none) := by
  induction l with
  | nil => simp [validateInterfaceList]
  | cons i rest ih =>
    have hi := intfIsValid_eq_of_ok env i (h i (by simp))
    simp only [validateInterfaceList, hi]
    simp [ih (fun x hx => h x (by simp [hx]))]

theorem validateInterfaceList_append_err (env : NetEnv)
    (l1 l2 : List RequisitionInterface) (i : RequisitionInterface) (err : String)
    (h1 : ∀ j ∈ l1, SpecIntfOK env j) (h2 : (i.IsValid env).2 = some err) :
    (validateInterfaceList env (l1 ++ i :: l2)).2 = some err := by
  induction l1 with
  | nil =>
    rcases hi : i.IsValid env with ⟨i1, e⟩
    rw [hi] at h2
    simp only at h2
    subst h2
    simp [validateInterfaceList, hi]
  | cons j rest ih =>
    have hj := intfIsValid_eq_of_ok env j (h1 j (by simp))
    simp only [List.cons_append, validateInterfaceList, hj]
    exact ih (fun x hx => h1 x (by simp [hx]))

/-- The primary-interface error message of `validateInterfaces`. -/
theorem validateInterfaces_eq_of_intfs_ok (env : NetEnv) (n : RequisitionNode)
    (h : ∀ i ∈ n.Interfaces, SpecIntfOK env i) :
    n.validateInterfaces env =
      ({ n with Interfaces := n.Interfaces.map (normIntf env) },
        if 1 < (n.Interfaces.filter (fun i => i.SnmpPrimary = "P")).length then
          some ("Node " ++ n.NodeLabel ++ " cannot have more than one primary interface")
        else
          (firstDup (n.Interfaces.map (fun i => i.IPAddress))).map
            (fun ipAddr => "IP Address " ++ ipAddr ++ " is defined more than once on node "
              ++ n.NodeLabel)) := by
  rw [RequisitionNode.validateInterfaces]
  rw [validateInterfaceList_eq_of_ok env n.Interfaces h]
  by_cases hp : 1 < (n.Interfaces.filter (fun i => i.SnmpPrimary = "P")).length
  · simp [hp]
  · rcases hd : firstDup (n.Interfaces.map (fun i => i.IPAddress)) with - | ipAddr <;>
      simp [hp, hd]

theorem validateInterfaces_none_iff (env : NetEnv) (n : RequisitionNode) :
    (n.validateInterfaces env).2 = none ↔
      (∀ i ∈ n.Interfaces, SpecIntfOK env i) ∧
      (n.Interfaces.filter (fun i => i.SnmpPrimary = "P")).length ≤ 1 ∧
      firstDup (n.Interfaces.map (fun i => i.IPAddress)) = none := by
  by_cases hall : ∀ i ∈ n.Interfaces, SpecIntfOK env i
  · rw [validateInterfaces_eq_of_intfs_ok env n hall]
    by_cases hp : 1 < (n.Interfaces.filter (fun i => i.SnmpPrimary = "P")).length
    · have hnle : ¬ (n.Interfaces.filter (fun i => i.SnmpPrimary = "P")).length ≤ 1 :=
        Nat.not_le.mpr hp
      simp [hp, hall, hnle]
    · have hle : (n.Interfaces.filter (fun i => i.SnmpPrimary = "P")).length ≤ 1 :=
        Nat.not_lt.mp hp
      rcases hd : firstDup (n.Interfaces.map (fun i => i.IPAddress)) with - | ipAddr
      · simp [hp, hd, hle]
        exact hall
      · simp [hp, hd, hall, hle]
  · rw [RequisitionNode.validateInterfaces]
    rcases hl : validateInterfaceList env n.Interfaces with ⟨l1, e⟩
    have hiff := validateInterfaceList_none_iff env n.Interfaces
    rw [hl] at hiff
    cases e with
    | none => exact absurd (hiff.mp rfl) hall
    | some err =>
      simp only [hl]
      simp only [Option.some_ne_none, false_iff]
      intro hc
      exact hall hc.1

theorem validateInterfaces_eq_of_ok (env : NetEnv) (n : RequisitionNode)
    (h1 : ∀ i ∈ n.Interfaces, SpecIntfOK env i)
    (h2 : (n.Interfaces.filter (fun i => i.SnmpPrimary = "P")).length ≤ 1)
    (h3 : firstDup (n.Interfaces.map (fun i => i.IPAddress)) = none) :
    n.validateInterfaces env =
      ({ n with Interfaces := n.Interfaces.map (normIntf env) }, none) := by
  rw [validateInterfaces_eq_of_intfs_ok env n h1, h3]
  simp [Nat.not_lt.mpr h2]

theorem nodeValidateTail_none_iff (env : NetEnv) (n : RequisitionNode) :
    (n.validateTail env).2 = none ↔
      (∀ i ∈ n.Interfaces, SpecIntfOK env i) ∧
      (n.Interfaces.filter (fun i => i.SnmpPrimary = "P")).length ≤ 1 ∧
      firstDup (n.Interfaces.map (fun i => i.IPAddress)) = none ∧
      (∀ c ∈ n.Categories, SpecCategoryOK c) ∧
      (∀ a ∈ n.Assets, SpecAssetOK a) ∧
      (∀ m ∈ n.MetaData, SpecMetaOK m) := by
  rw [RequisitionNode.validateTail]
  by_cases hio : (∀ i ∈ n.Interfaces, SpecIntfOK env i) ∧
      (n.Interfaces.filter (fun i => i.SnmpPrimary = "P")).length ≤ 1 ∧
      firstDup (n.Interfaces.map (fun i => i.IPAddress)) = none
  · obtain ⟨hi1, hi2, hi3⟩ := hio
    rw [validateInterfaces_eq_of_ok env n hi1 hi2 hi3]
    simp only []
    rcases hc : checkCategoryList n.Categories with - | err
    · have hc' := (checkCategoryList_none_iff n.Categories).mp hc
      rcases ha : checkAssetList n.Assets with - | err
      · have ha' := (checkAssetList_none_iff n.Assets).mp ha
        rcases hm : (validateMetaDataList n.MetaData).2 with - | err
        · have hm' := (validateMetaDataList_none_iff n.MetaData).mp hm
          simp [hc, ha, hm, hi2, hi3]
          exact ⟨hi1, hc', ha', hm'⟩
        · have hm' : ¬ ∀ m ∈ n.MetaData, SpecMetaOK m := by
            intro hall
            rw [(validateMetaDataList_none_iff n.MetaData).mpr hall] at hm
            exact Option.noConfusion hm
          simp [hc, ha, hm, hm']
      · have ha' : ¬ ∀ a ∈ n.Assets, SpecAssetOK a := by
          intro hall
          rw [(checkAssetList_none_iff n.Assets).mpr hall] at ha
          exact Option.noConfusion ha
        simp [hc, ha, ha']
    · have hc' : ¬ ∀ c ∈ n.Categories, SpecCategoryOK c := by
        intro hall
        rw [(checkCategoryList_none_iff n.Categories).mpr hall] at hc
        exact Option.noConfusion hc
      simp [hc, hc']
  · rcases hv : n.validateInterfaces env with ⟨n1, e⟩
    have hiff := validateInterfaces_none_iff env n
    rw [hv] at hiff
    cases e with
    | none => exact absurd (hiff.mp rfl) hio
    | some err =>
      simp only [hv]
      simp only [Option.some_ne_none, false_iff]
      intro hcontra
      exact hio ⟨hcontra.1, hcontra.2.1, hcontra.2.2.1⟩

theorem nodeValidateTail_eq_of_ok (env : NetEnv) (n : RequisitionNode)
    (h1 : ∀ i ∈ n.Interfaces, SpecIntfOK env i)
    (h2 : (n.Interfaces.filter (fun i => i.SnmpPrimary = "P")).length ≤ 1)
    (h3 : firstDup (n.Interfaces.map (fun i => i.IPAddress)) = none)
    (h4 : ∀ c ∈ n.Categories, SpecCategoryOK c)
    (h5 : ∀ a ∈ n.Assets, SpecAssetOK a)
    (h6 : ∀ m ∈ n.MetaData, SpecMetaOK m) :
    n.validateTail env =
      ({ n with Interfaces := n.Interfaces.map (normIntf env)
                MetaData := n.MetaData.map normMeta }, none) := by
  rw [RequisitionNode.validateTail]
  rw [validateInterfaces_eq_of_ok env n h1 h2 h3]
  simp only []
  rw [(checkCategoryList_none_iff n.Categories).mpr h4]
  rw [(checkAssetList_none_iff n.Assets).mpr h5]
  rw [validateMetaDataList_eq_of_ok n.MetaData h6]

theorem nodeIsValid_eq_tail (env : NetEnv) (n : RequisitionNode)
    (h1 : n.ForeignID ≠ "")
    (h2 : hasForbiddenChars n.ForeignID = false)
    (h3 : ¬(n.ParentForeignID ≠ "" ∧ n.ParentNodeLabel ≠ ""))
    (h4 : n.ParentNodeLabel ≠ (if n.NodeLabel = "" then n.ForeignID else n.NodeLabel))
    (h5 : n.ParentForeignID ≠ n.ForeignID) :
    n.IsValid env = (normLabel n).validateTail env := by
  obtain ⟨lbl, fid, loc, city, bld, pfs, pfid, pnl, intfs, cats, assets, md⟩ := n
  simp only at h1 h2 h3 h4 h5
  rw [RequisitionNode.IsValid, normLabel]
  by_cases hl : lbl = ""
  · subst hl
    simp at h4
    simp [h1, h2, h3, h4, h5]
  · rw [if_neg hl] at h4
    simp [h1, h2, h3, h4, h5, hl]

theorem nodeIsValid_none_iff (env : NetEnv) (n : RequisitionNode) :
    (n.IsValid env).2 = none ↔ SpecNodeOK env n := by
  by_cases h1 : n.ForeignID = ""
  · rw [RequisitionNode.IsValid]
    simp [h1, SpecNodeOK]
  · by_cases h2 : hasForbiddenChars n.ForeignID = true
    · rw [RequisitionNode.IsValid]
      simp [h1, h2, SpecNodeOK]
    · by_cases h3 : n.ParentForeignID ≠ "" ∧ n.ParentNodeLabel ≠ ""
      · obtain ⟨lbl, fid, loc, city, bld, pfs, pfid, pnl, intfs, cats, assets, md⟩ := n
        simp only at h1 h2 h3
        rw [RequisitionNode.IsValid]
        by_cases hl : lbl = "" <;> simp [h1, h2, h3, hl, SpecNodeOK]
      · by_cases h4 : n.ParentNodeLabel =
            (if n.NodeLabel = "" then n.ForeignID else n.NodeLabel)
        · obtain ⟨lbl, fid, loc, city, bld, pfs, pfid, pnl, intfs, cats, assets, md⟩ := n
          simp only at h1 h2 h3 h4
          rw [RequisitionNode.IsValid]
          by_cases hl : lbl = ""
          · subst hl
            simp at h4
            have hpf : pfid = "" := by
              by_contra hc
              exact h3 ⟨hc, h4 ▸ h1⟩
            simp [h1, h2, h4, hpf, SpecNodeOK]
          · rw [if_neg hl] at h4
            have hpf : pfid = "" := by
              by_contra hc
              exact h3 ⟨hc, h4 ▸ hl⟩
            simp [h1, h2, h4, hpf, hl, SpecNodeOK]
        · by_cases h5 : n.ParentForeignID = n.ForeignID
          · obtain ⟨lbl, fid, loc, city, bld, pfs, pfid, pnl, intfs, cats, assets, md⟩ := n
            simp only at h1 h2 h3 h4 h5
            have hpn : pnl = "" := by
              by_contra hc
              exact h3 ⟨h5 ▸ h1, hc⟩
            rw [RequisitionNode.IsValid]
            by_cases hl : lbl = ""
            · subst hl
              simp at h4
              simp [h1, h2, h4, h5, hpn, SpecNodeOK]
              split <;> simp
            · rw [if_neg hl] at h4
              simp [h1, h2, h4, h5, hpn, hl, SpecNodeOK]
              split <;> simp
          · rw [nodeIsValid_eq_tail env n h1 (by simpa using h2) h3 h4 h5,
              nodeValidateTail_none_iff]
            simp only [normLabel]
            simp [SpecNodeOK, h1, h2, h3, h4, h5]

theorem nodeIsValid_eq_of_ok (env : NetEnv) (n : RequisitionNode)
    (h : SpecNodeOK env n) :
    n.IsValid env = (normNode env n, none) := by
  obtain ⟨h1, h2, h3, h4, h5, h6, h7, h8, h9, h10, h11⟩ := h
  rw [nodeIsValid_eq_tail env n h1 h2 h3 h4 h5]
  rw [nodeValidateTail_eq_of_ok env (normLabel n) (by simpa [normLabel] using h6)
    (by simpa [normLabel] using h7) (by simpa [normLabel] using h8)
    (by simpa [normLabel] using h9) (by simpa [normLabel] using h10)
    (by simpa [normLabel] using h11)]
  simp [normLabel, normNode]

/-! ## Level lemmas: the node loop of a requisition -/

theorem validateNodeList_none_iff (env : NetEnv) (reqName : String)
    (l : List RequisitionNode) :
    (validateNodeList env reqName l).2 = none ↔ ∀ n ∈ l, SpecNodeOK env n := by
  induction l with
  | nil => simp [validateNodeList]
  | cons n rest ih =>
    rcases hn : n.IsValid env with ⟨n1, e⟩
    have hiff := nodeIsValid_none_iff env n
    rw [hn] at hiff
    cases e with
    | none =>
      simp only [validateNodeList, hn]
      simp [ih, hiff.mp rfl]
    | some err =>
      simp only [validateNodeList, hn]
      simp only [Option.some_ne_none, false_iff]
      intro hall
      have hcontra := hiff.mpr (hall n (by simp))
      simp at hcontra

theorem validateNodeList_eq_of_ok (env : NetEnv) (reqName : String)
    (l : List RequisitionNode) (h : ∀ n ∈ l, SpecNodeOK env n) :
    validateNodeList env reqName l = (l.map (normNode env), none) := by
  induction l with
  | nil => simp [validateNodeList]
  | cons n rest ih =>
    have hn := nodeIsValid_eq_of_ok env n (h n (by simp))
    simp only [validateNodeList, hn]
    simp [ih (fun x hx => h x (by simp [hx]))]

theorem validateNodeList_append_err (env : NetEnv) (reqName : String)
    (l1 l2 : List RequisitionNode) (n : RequisitionNode) (err : String)
    (h1 : ∀ m ∈ l1, SpecNodeOK env m) (h2 : (n.IsValid env).2 = some err) :
    (validateNodeList env reqName (l1 ++ n :: l2)).2 =
      some ("Problem on node " ++ (n.IsValid env).1.NodeLabel ++ " on requisition "
        ++ reqName ++ ": " ++ err) := by
  induction l1 with
  | nil =>
    rcases hn : n.IsValid env with ⟨n1, e⟩
    rw [hn] at h2
    simp only at h2
    subst h2
    simp [validateNodeList, hn]
  | cons m rest ih =>
    have hm := nodeIsValid_eq_of_ok env m (h1 m (by simp))
    simp only [List.cons_append, validateNodeList, hm]
    exact ih (fun x hx => h1 x (by simp [hx]))

/-! ## Level lemmas: requisitions -/

theorem reqIsValid_eq_of_nodes_ok (env : NetEnv) (r : Requisition)
    (h1 : r.Name ≠ "")
    (h2 : hasForbiddenChars r.Name = false)
    (h3 : ∀ n ∈ r.Nodes, SpecNodeOK env n) :
    r.IsValid env =
      ({ r with Nodes := r.Nodes.map (normNode env) },
        (firstDup (r.Nodes.map (fun n => n.ForeignID))).map
          (fun fid => "Duplicate Foreign ID " ++ fid ++ " on requisition " ++ r.Name)) := by
  rw [Requisition.IsValid]
  rw [validateNodeList_eq_of_ok env r.Name r.Nodes h3]
  rcases hd : firstDup (r.Nodes.map (fun n => n.ForeignID)) with - | fid <;>
    simp [h1, h2, hd]

theorem reqIsValid_none_iff (env : NetEnv) (r : Requisition) :
    (r.IsValid env).2 = none ↔ SpecReqOK env r := by
  by_cases h1 : r.Name = ""
  · rw [Requisition.IsValid]
    simp [h1, SpecReqOK]
  · by_cases h2 : hasForbiddenChars r.Name = true
    · rw [Requisition.IsValid]
      simp [h1, h2, SpecReqOK]
    · by_cases h3 : ∀ n ∈ r.Nodes, SpecNodeOK env n
      · rw [reqIsValid_eq_of_nodes_ok env r h1 (by simpa using h2) h3]
        rcases hd : firstDup (r.Nodes.map (fun n => n.ForeignID)) with - | fid
        · have hok : SpecReqOK env r := ⟨h1, by simpa using h2, h3, hd⟩
          simp [hd, hok]
        · have hno : ¬ SpecReqOK env r := by
            intro hc
            rw [SpecReqOK] at hc
            rw [hc.2.2.2] at hd
            exact Option.noConfusion hd
          simp [hd, hno]
      · rw [Requisition.IsValid]
        rcases hl : validateNodeList env r.Name r.Nodes with ⟨l1, e⟩
        have hiff := validateNodeList_none_iff env r.Name r.Nodes
        rw [hl] at hiff
        cases e with
        | none => exact absurd (hiff.mp rfl) h3
        | some err =>
          simp only [hl]
          simp [h1, h2, SpecReqOK]
          intro hall
          exact absurd hall h3

theorem reqIsValid_eq_of_ok (env : NetEnv) (r : Requisition) (h : SpecReqOK env r) :
    r.IsValid env = (normReq env r, none) := by
  obtain ⟨h1, h2, h3, h4⟩ := h
  rw [reqIsValid_eq_of_nodes_ok env r h1 h2 h3, h4]
  simp [normReq]

theorem reqIsValid_err_of_node_err (env : NetEnv) (r : Requisition)
    (l1 l2 : List RequisitionNode) (n : RequisitionNode) (err : String)
    (hname : r.Name ≠ "")
    (hclean : hasForbiddenChars r.Name = false)
    (hsplit : r.Nodes = l1 ++ n :: l2)
    (h1 : ∀ m ∈ l1, SpecNodeOK env m)
    (h2 : (n.IsValid env).2 = some err) :
    (r.IsValid env).2 =
      some ("Problem on node " ++ (n.IsValid env).1.NodeLabel ++ " on requisition "
        ++ r.Name ++ ": " ++ err) := by
  rw [Requisition.IsValid]
  rcases hl : validateNodeList env r.Name r.Nodes with ⟨nl, e⟩
  have := validateNodeList_append_err env r.Name l1 l2 n err h1 h2
  rw [← hsplit, hl] at this
  simp only at this
  subst this
  simp [hname, hclean, hl]

/-! ## Helper lemmas about `firstDup` -/

theorem firstDup_eq_none_iff (l : List String) : firstDup l = none ↔ l.Nodup := by
  rw [firstDup, List.head?_eq_none_iff, List.filter_eq_nil_iff,
    List.nodup_iff_count_le_one]
  constructor
  · intro h a
    by_cases ha : a ∈ l
    · simpa [Nat.not_lt] using h a ha
    · simp [List.count_eq_zero_of_not_mem ha]
  · intro h a ha
    simp [Nat.not_lt]
    exact h a

theorem firstDup_pair_self (x : String) : firstDup [x, x] = some x := by
  simp [firstDup]

theorem firstDup_pair_ne (x y : String) (h : x ≠ y) : firstDup [x, y] = none := by
  rw [firstDup_eq_none_iff]
  simp [h]

/-! ## Claim theorems -/

/-- C10: `RequisitionMetaData.IsValid` applies the context default before
checking key and value, so for every entry with empty context and empty key
(or empty value) it returns an error and nevertheless leaves the context set
to `"requisition"` — the normalization side effect persists on failure. -/
theorem claim_C10_metadata_normalizes_even_on_error (m : RequisitionMetaData)
    (hc : m.Context = "") (hkv : m.Key = "" ∨ m.Value = "") :
    (m.IsValid.2).isSome = true ∧
    m.IsValid.1 = { m with Context := "requisition" } := by
  constructor
  · rcases hkv with hk | hv
    · simp [RequisitionMetaData.IsValid, hc, hk]
    · by_cases hk : m.Key = "" <;>
        simp [RequisitionMetaData.IsValid, hc, hk, hv]
  · rw [metaIsValid_fst, normMeta, hc]
    simp

/-- C10 witness: the entry `{key:"", value:"v", context:""}` is rejected yet
its context ends up `"requisition"`. -/
theorem claim_C10_metadata_normalizes_even_on_error_witness :
    (({ Key := "", Value := "v" } : RequisitionMetaData).IsValid.2).isSome = true ∧
    ({ Key := "", Value := "v" } : RequisitionMetaData).IsValid.1 =
      { Key := "", Value := "v", Context := "requisition" } :=
  claim_C10_metadata_normalizes_even_on_error { Key := "", Value := "v" } rfl (Or.inl rfl)

/-- C5: every entity whose name-like field (service name, asset name,
category name, node foreign ID, requisition name) contains a forbidden
character fails with the `Invalid characters on ...` error naming the field
and listing the full set; a clean name does not fail the character check
(shown on the minimal otherwise-valid entity of each kind). -/
theorem claim_C5_forbidden_character_set (s : String) (hs : s ≠ "") :
    (hasForbiddenChars s = true →
      (∀ sv : RequisitionMonitoredService, sv.Name = s →
        sv.IsValid = (sv, some ("Invalid characters on service name " ++ s
          ++ forbiddenCharsMsgTail))) ∧
      (∀ a : RequisitionAsset, a.Name = s →
        a.IsValid = some ("Invalid characters on asset name " ++ s
          ++ forbiddenCharsMsgTail)) ∧
      (∀ c : RequisitionCategory, c.Name = s →
        c.IsValid = some ("Invalid characters on category name " ++ s
          ++ forbiddenCharsMsgTail)) ∧
      (∀ (env : NetEnv) (n : RequisitionNode), n.ForeignID = s →
        n.IsValid env = (n, some ("Invalid characters on Foreign ID " ++ s
          ++ forbiddenCharsMsgTail))) ∧
      (∀ (env : NetEnv) (r : Requisition), r.Name = s →
        r.IsValid env = (r, some ("Invalid characters on requisition name " ++ s
          ++ forbiddenCharsMsgTail)))) ∧
    (hasForbiddenChars s = false →
      ({ Name := s } : RequisitionMonitoredService).IsValid = ({ Name := s }, none) ∧
      ({ Name := s, Value := "v" } : RequisitionAsset).IsValid = none ∧
      ({ Name := s } : RequisitionCategory).IsValid = none ∧
      (∀ env : NetEnv, ({ ForeignID := s } : RequisitionNode).IsValid env =
        ({ NodeLabel := s, ForeignID := s }, none)) ∧
      (∀ env : NetEnv, ({ Name := s } : Requisition).IsValid env =
        ({ Name := s }, none))) := by
  constructor
  · intro hb
    refine ⟨?_, ?_, ?_, ?_, ?_⟩
    · intro sv hx
      rw [RequisitionMonitoredService.IsValid]
      simp [hx, hs, hb]
    · intro a hx
      rw [RequisitionAsset.IsValid]
      simp [hx, hs, hb]
    · intro c hx
      rw [RequisitionCategory.IsValid]
      simp [hx, hs, hb]
    · intro env n hx
      rw [RequisitionNode.IsValid]
      simp [hx, hs, hb]
    · intro env r hx
      rw [Requisition.IsValid]
      simp [hx, hs, hb]
  · intro hb
    refine ⟨?_, ?_, ?_, ?_, ?_⟩
    · rw [RequisitionMonitoredService.IsValid]
      simp [hs, hb, validateMetaDataList]
    · rw [RequisitionAsset.IsValid]
      simp [hs, hb]
    · rw [RequisitionCategory.IsValid]
      simp [hs, hb]
    · intro env
      have hok : SpecNodeOK env { ForeignID := s } := by
        refine ⟨hs, hb, by simp, ?_, ?_, by simp, by simp, by simp [firstDup],
          by simp, by simp, by simp⟩
        · simpa using Ne.symm hs
        · simpa using Ne.symm hs
      rw [nodeIsValid_eq_of_ok env _ hok]
      simp [normNode]
    · intro env
      have hok : SpecReqOK env { Name := s } := by
        refine ⟨hs, hb, by simp, by simp [firstDup]⟩
      rw [reqIsValid_eq_of_ok env _ hok]
      simp [normReq]

/-- C5 witness: `"a/b"` is rejected with the character error on each entity
kind; `"ok"` passes the character check. -/
theorem claim_C5_forbidden_character_set_witness :
    ({ Name := "a/b" } : RequisitionMonitoredService).IsValid =
      ({ Name := "a/b" }, some ("Invalid characters on service name a/b"
        ++ forbiddenCharsMsgTail)) ∧
    ({ Name := "a*b", Value := "v" } : RequisitionAsset).IsValid =
      some ("Invalid characters on asset name a*b" ++ forbiddenCharsMsgTail) ∧
    ({ Name := "a?b" } : RequisitionCategory).IsValid =
      some ("Invalid characters on category name a?b" ++ forbiddenCharsMsgTail) ∧
    ({ ForeignID := "a:b" } : RequisitionNode).IsValid envNoFqdn =
      ({ ForeignID := "a:b" }, some ("Invalid characters on Foreign ID a:b"
        ++ forbiddenCharsMsgTail)) ∧
    ({ Name := "a&b" } : Requisition).IsValid envNoFqdn =
      ({ Name := "a&b" }, some ("Invalid characters on requisition name a&b"
        ++ forbiddenCharsMsgTail)) ∧
    ({ Name := "ok" } : RequisitionMonitoredService).IsValid = ({ Name := "ok" }, none) ∧
    ({ ForeignID := "ok" } : RequisitionNode).IsValid envNoFqdn =
      ({ NodeLabel := "ok", ForeignID := "ok" }, none) := by
  refine ⟨?_, ?_, ?_, ?_, ?_, ?_, ?_⟩
  · exact ((claim_C5_forbidden_character_set ("a/b") (by decide)).1
      (by decide)).1 _ rfl
  · exact ((claim_C5_forbidden_character_set ("a*b") (by decide)).1
      (by decide)).2.1 _ rfl
  · exact ((claim_C5_forbidden_character_set ("a?b") (by decide)).1
      (by decide)).2.2.1 _ rfl
  · exact ((claim_C5_forbidden_character_set ("a:b") (by decide)).1
      (by decide)).2.2.2.1 envNoFqdn _ rfl
  · exact ((claim_C5_forbidden_character_set ("a&b") (by decide)).1
      (by decide)).2.2.2.2 envNoFqdn _ rfl
  · exact ((claim_C5_forbidden_character_set ("ok") (by decide)).2
      (by decide)).1
  · exact ((claim_C5_forbidden_character_set ("ok") (by decide)).2
      (by decide)).2.2.2.1 envNoFqdn

/-- C4: `RequisitionInterface.IsValid` checks in fixed order — empty address
first; then status (normalizing 0 to 1) must be 1 or 3; then snmp-primary
(normalizing "" to "N") must be P, S or N; address resolution and
service/meta-data validation (`validateTail`) run only after all three pass.
-/
theorem claim_C4_interface_check_order (env : NetEnv) (i : RequisitionInterface) :
    (i.IPAddress = "" → i.IsValid env = (i, some ("IP Address cannot be empty"))) ∧
    (i.IPAddress ≠ "" → i.Status ≠ 0 → i.Status ≠ 1 → i.Status ≠ 3 →
      i.IsValid env = (i, some ("Invalid status for interface " ++ i.IPAddress
        ++ ": " ++ toString i.Status))) ∧
    (i.IPAddress ≠ "" → (i.Status = 0 ∨ i.Status = 1 ∨ i.Status = 3) →
      i.SnmpPrimary ≠ "" → i.SnmpPrimary ≠ "P" → i.SnmpPrimary ≠ "S" →
      i.SnmpPrimary ≠ "N" →
      i.IsValid env = ({ i with Status := if i.Status = 0 then 1 else i.Status },
        some ("Invalid snmp-primary for interface " ++ i.IPAddress ++ ": "
          ++ i.SnmpPrimary))) ∧
    (i.IPAddress ≠ "" → (i.Status = 0 ∨ i.Status = 1 ∨ i.Status = 3) →
      (i.SnmpPrimary = "" ∨ i.SnmpPrimary = "P" ∨ i.SnmpPrimary = "S" ∨
        i.SnmpPrimary = "N") →
      i.IsValid env = (normFields i).validateTail env) := by
  refine ⟨?_, ?_, ?_, ?_⟩
  · intro h
    rw [RequisitionInterface.IsValid]
    simp [h]
  · intro h1 h0 hs1 hs3
    rw [RequisitionInterface.IsValid]
    simp [h1, h0, hs1, hs3]
  · intro h1 h2 hE hP hS hN
    rw [RequisitionInterface.IsValid]
    rcases h2 with h | h | h <;> simp [h1, h, hE, hP, hS, hN] <;>
      (conv_rhs => rw [← h])
  · intro h1 h2 h3
    exact intfIsValid_eq_tail env i h1 h2 h3

/-- C4 witness: the four stages at concrete interfaces. -/
theorem claim_C4_interface_check_order_witness :
    ({ IPAddress := "" } : RequisitionInterface).IsValid envNoFqdn =
      ({ IPAddress := "" }, some ("IP Address cannot be empty")) ∧
    ({ IPAddress := "10.0.0.1", Status := 5 } : RequisitionInterface).IsValid envNoFqdn =
      ({ IPAddress := "10.0.0.1", Status := 5 },
        some ("Invalid status for interface 10.0.0.1: 5")) ∧
    ({ IPAddress := "10.0.0.1", SnmpPrimary := "X" } : RequisitionInterface).IsValid
        envNoFqdn =
      ({ IPAddress := "10.0.0.1", SnmpPrimary := "X", Status := 1 },
        some ("Invalid snmp-primary for interface 10.0.0.1: X")) ∧
    ({ IPAddress := "10.0.0.1" } : RequisitionInterface).IsValid envNoFqdn =
      RequisitionInterface.validateTail envNoFqdn
        { IPAddress := "10.0.0.1", Status := 1, SnmpPrimary := "N" } := by
  refine ⟨?_, ?_, ?_, ?_⟩
  · exact (claim_C4_interface_check_order envNoFqdn _).1 rfl
  · have h := (claim_C4_interface_check_order envNoFqdn
      { IPAddress := "10.0.0.1", Status := 5 }).2.1
      (by decide) (by decide) (by decide) (by decide)
    rw [h]
    decide
  · have h := (claim_C4_interface_check_order envNoFqdn
      { IPAddress := "10.0.0.1", SnmpPrimary := "X" }).2.2.1
      (by decide) (Or.inl rfl) (by decide) (by decide) (by decide) (by decide)
    rw [h]
    decide
  · have h := (claim_C4_interface_check_order envNoFqdn
      { IPAddress := "10.0.0.1" }).2.2.2
      (by decide) (Or.inl rfl) (Or.inl rfl)
    rw [h]
    decide

/-- C2: for an address that does not parse as a literal: with the FQDN toggle
off, `validateIP` fails with the not-a-literal message; with the toggle on
and a non-empty resolver answer it succeeds and overwrites the address with
the first answer; with the toggle on and a failed/empty resolution it fails
with the (distinct) cannot-get-address message.  The same outcomes hold for
`IsValid` on an interface carrying only that address. -/
theorem claim_C2_address_resolution_toggle (env : NetEnv) (i : RequisitionInterface)
    (hp : env.ParseIP i.IPAddress = false) :
    (env.AllowFqdnOnRequisitionedInterfaces = false →
      i.validateIP env =
        (i, some (i.IPAddress ++ " is not a valid IPv4 or IPv6 address"))) ∧
    (∀ a rest, env.AllowFqdnOnRequisitionedInterfaces = true →
      env.LookupIP i.IPAddress = some (a :: rest) →
      i.validateIP env = ({ i with IPAddress := a }, none)) ∧
    (env.AllowFqdnOnRequisitionedInterfaces = true →
      env.LookupIP i.IPAddress = none ∨ env.LookupIP i.IPAddress = some [] →
      i.validateIP env =
        (i, some ("Cannot get address from " ++ i.IPAddress
          ++ " (invalid IP or FQDN)"))) ∧
    ("Cannot get address from " ++ i.IPAddress ++ " (invalid IP or FQDN)" ≠
      i.IPAddress ++ " is not a valid IPv4 or IPv6 address") ∧
    (∀ s : String, s ≠ "" → env.ParseIP s = false →
      (env.AllowFqdnOnRequisitionedInterfaces = false →
        (({ IPAddress := s } : RequisitionInterface).IsValid env).2 =
          some (s ++ " is not a valid IPv4 or IPv6 address")) ∧
      (∀ a rest, env.AllowFqdnOnRequisitionedInterfaces = true →
        env.LookupIP s = some (a :: rest) →
        ({ IPAddress := s } : RequisitionInterface).IsValid env =
          ({ IPAddress := a, SnmpPrimary := "N", Status := 1 }, none)) ∧
      (env.AllowFqdnOnRequisitionedInterfaces = true →
        env.LookupIP s = none ∨ env.LookupIP s = some [] →
        (({ IPAddress := s } : RequisitionInterface).IsValid env).2 =
          some ("Cannot get address from " ++ s ++ " (invalid IP or FQDN)"))) := by
  refine ⟨?_, ?_, ?_, ?_, ?_⟩
  · intro hf
    rw [RequisitionInterface.validateIP]
    simp [hp, hf]
  · intro a rest hf hl
    rw [RequisitionInterface.validateIP]
    simp [hp, hf, hl]
  · intro hf hcase
    rw [RequisitionInterface.validateIP]
    rcases hcase with hl | hl <;> simp [hp, hf, hl]
  · intro hcontra
    have hlen := congrArg String.length hcontra
    rw [String.length_append, String.length_append, String.length_append] at hlen
    rw [show ("Cannot get address from ").length = 24 from by decide] at hlen
    rw [show (" (invalid IP or FQDN)").length = 21 from by decide] at hlen
    rw [show (" is not a valid IPv4 or IPv6 address").length = 36 from by decide] at hlen
    omega
  · intro s hs hps
    have ht := intfIsValid_eq_tail env { IPAddress := s } (by simpa using hs)
      (Or.inl rfl) (Or.inl rfl)
    have hnf : normFields { IPAddress := s } =
        { IPAddress := s, SnmpPrimary := "N", Status := 1 } := by
      simp [normFields]
    rw [hnf] at ht
    refine ⟨?_, ?_, ?_⟩
    · intro hf
      rw [ht, RequisitionInterface.validateTail, RequisitionInterface.validateIP]
      simp [hps, hf]
    · intro a rest hf hl
      rw [ht, RequisitionInterface.validateTail, RequisitionInterface.validateIP]
      simp [hps, hf, hl, RequisitionInterface.validateServices, validateServiceList,
        firstDup, checkMetaDataList]
    · intro hf hcase
      rw [ht, RequisitionInterface.validateTail, RequisitionInterface.validateIP]
      rcases hcase with hl | hl <;> simp [hps, hf, hl]

/-- C2 witness: `"not-an-ip"` with resolution disabled fails with the
not-a-literal message; `"www.opennms.org"` with the resolver of `envFqdn`
succeeds and is rewritten to `10.1.2.3`; `"not-an-ip"` with resolution
enabled but unresolvable fails with the cannot-get-address message. -/
theorem claim_C2_address_resolution_toggle_witness :
    (({ IPAddress := "not-an-ip" } : RequisitionInterface).IsValid envNoFqdn).2 =
      some ("not-an-ip is not a valid IPv4 or IPv6 address") ∧
    ({ IPAddress := "www.opennms.org" } : RequisitionInterface).IsValid envFqdn =
      ({ IPAddress := "10.1.2.3", SnmpPrimary := "N", Status := 1 }, none) ∧
    (({ IPAddress := "not-an-ip" } : RequisitionInterface).IsValid envFqdn).2 =
      some ("Cannot get address from not-an-ip (invalid IP or FQDN)") := by
  refine ⟨?_, ?_, ?_⟩
  · have h := ((claim_C2_address_resolution_toggle envNoFqdn
      { IPAddress := "not-an-ip" } (by decide)).2.2.2.2 ("not-an-ip")
      (by decide) (by decide)).1 rfl
    rw [h]
    decide
  · exact ((claim_C2_address_resolution_toggle envFqdn
      { IPAddress := "www.opennms.org" } (by decide)).2.2.2.2 ("www.opennms.org")
      (by decide) (by decide)).2.1 ("10.1.2.3") [] rfl (by decide)
  · have h := ((claim_C2_address_resolution_toggle envFqdn
      { IPAddress := "not-an-ip" } (by decide)).2.2.2.2 ("not-an-ip")
      (by decide) (by decide)).2.2 rfl (Or.inl (by decide))
    rw [h]
    decide

/-- C1 (amended): for every requisition whose field values are all valid
(`SpecReqOK`), `IsValid` succeeds and returns the normalized tree `normReq`:
`status` 0 becomes 1, `snmpPrimary` "" becomes "N", empty `nodeLabel` becomes
the foreign ID, and the empty meta-data `context` becomes `"requisition"` for
node- and service-attached entries — but NOT for meta-data attached directly
to an interface, which is validated on a copy and keeps its empty context. -/
theorem claim_C1_valid_fields_normalize (env : NetEnv) (r : Requisition)
    (h : SpecReqOK env r) :
    r.IsValid env = (normReq env r, none) :=
  reqIsValid_eq_of_ok env r h

/-- C1 witness: the spec scenario requisition validates and is normalized to
`nodeLabel="n1"`, `status=1`, `snmpPrimary="N"`. -/
theorem claim_C1_valid_fields_normalize_witness :
    SpecReqOK envFqdn testReq ∧
    testReq.IsValid envFqdn =
      ({ Name := "Test"
         Nodes := [{ NodeLabel := "n1", ForeignID := "n1"
                     Interfaces := [{ IPAddress := "10.0.0.1", SnmpPrimary := "N",
                                      Status := 1 }] }] }, none) :=
  ⟨by decide, by
    rw [claim_C1_valid_fields_normalize envFqdn testReq (by decide)]
    decide⟩

/-- C1 counterexample: a requisition whose interface carries a meta-data
entry with empty context validates successfully, yet the entry's context is
left `""` rather than `"requisition"` — the Go loop iterates interface
meta-data by value, so the claimed normalization does not happen there. -/
theorem claim_C1_counterexample :
    testReqIntfMeta.IsValid envNoFqdn =
      ({ Name := "Test"
         Nodes := [{ NodeLabel := "n1", ForeignID := "n1"
                     Interfaces := [{ IPAddress := "10.0.0.1", SnmpPrimary := "N",
                                      Status := 1
                                      MetaData := [{ Key := "k", Value := "v",
                                                     Context := "" }] }] }] }, none) ∧
    ("" : String) ≠ "requisition" := by
  constructor
  · decide
  · decide

/-- C3: `Requisition.IsValid` checks the name first (non-empty, then
character-clean), then validates nodes in order — wrapping the first node
failure with the node's (possibly defaulted) label and the requisition name —
and only when every node passes does it report a duplicate foreign ID, which
exists exactly when the foreign-ID list is not `Nodup`. -/
theorem claim_C3_requisition_validation_order (env : NetEnv) (r : Requisition) :
    (r.Name = "" → r.IsValid env = (r, some ("Requisition name cannot be empty"))) ∧
    (r.Name ≠ "" → hasForbiddenChars r.Name = true →
      r.IsValid env = (r, some ("Invalid characters on requisition name " ++ r.Name
        ++ forbiddenCharsMsgTail))) ∧
    (∀ l1 n l2 err, r.Name ≠ "" → hasForbiddenChars r.Name = false →
      r.Nodes = l1 ++ n :: l2 → (∀ m ∈ l1, SpecNodeOK env m) →
      (n.IsValid env).2 = some err →
      (r.IsValid env).2 = some ("Problem on node " ++ (n.IsValid env).1.NodeLabel
        ++ " on requisition " ++ r.Name ++ ": " ++ err)) ∧
    (r.Name ≠ "" → hasForbiddenChars r.Name = false →
      (∀ n ∈ r.Nodes, SpecNodeOK env n) →
      r.IsValid env = ({ r with Nodes := r.Nodes.map (normNode env) },
        (firstDup (r.Nodes.map (fun n => n.ForeignID))).map
          (fun fid => "Duplicate Foreign ID " ++ fid ++ " on requisition " ++ r.Name))) ∧
    (∀ l : List String, firstDup l = none ↔ l.Nodup) := by
  refine ⟨?_, ?_, ?_, ?_, firstDup_eq_none_iff⟩
  · intro h
    rw [Requisition.IsValid]
    simp [h]
  · intro h1 h2
    rw [Requisition.IsValid]
    simp [h1, h2]
  · intro l1 n l2 err h1 h2 hsplit hok herr
    exact reqIsValid_err_of_node_err env r l1 l2 n err h1 h2 hsplit hok herr
  · intro h1 h2 h3
    exact reqIsValid_eq_of_nodes_ok env r h1 h2 h3

/-- C3 witness: duplicate foreign IDs are rejected (after both nodes pass),
unique ones pass, and a failing node is wrapped with the requisition name. -/
theorem claim_C3_requisition_validation_order_witness :
    (testReqDupFID.IsValid envNoFqdn).2 =
      some ("Duplicate Foreign ID n1 on requisition Test") ∧
    (({ Name := "Test", Nodes := [{ ForeignID := "n1" }, { ForeignID := "n2" }] } :
      Requisition).IsValid envNoFqdn).2 = none ∧
    (({ Name := "Test", Nodes := [{ ForeignID := "" }] } :
      Requisition).IsValid envNoFqdn).2 =
      some ("Problem on node  on requisition Test: Foreign ID cannot be empty") := by
  refine ⟨?_, ?_, ?_⟩
  · have h := (claim_C3_requisition_validation_order envNoFqdn testReqDupFID).2.2.2.1
      (by decide) (by decide) (by decide)
    rw [h]
    decide
  · have h := (claim_C3_requisition_validation_order envNoFqdn
      { Name := "Test", Nodes := [{ ForeignID := "n1" }, { ForeignID := "n2" }] }).2.2.2.1
      (by decide) (by decide) (by decide)
    rw [h]
    decide
  · have h := (claim_C3_requisition_validation_order envNoFqdn
      { Name := "Test", Nodes := [{ ForeignID := "" }] }).2.2.1
      [] { ForeignID := "" } [] ("Foreign ID cannot be empty")
      (by decide) (by decide) rfl (by simp) (by decide)
    rw [h]
    decide

/-- C6: with every interface individually valid (and the primary check not
firing), a duplicated as-supplied address makes `validateInterfaces` fail
with the duplicate-IP message naming the node, while pairwise-distinct
addresses pass; an individually failing interface preempts the duplicate
report (duplicates are only reported after all interfaces validate). -/
theorem claim_C6_duplicate_ip_detection (env : NetEnv) (n : RequisitionNode) :
    (∀ ip, (∀ i ∈ n.Interfaces, SpecIntfOK env i) →
      (n.Interfaces.filter (fun i => i.SnmpPrimary = "P")).length ≤ 1 →
      firstDup (n.Interfaces.map (fun i => i.IPAddress)) = some ip →
      (n.validateInterfaces env).2 =
        some ("IP Address " ++ ip ++ " is defined more than once on node "
          ++ n.NodeLabel)) ∧
    ((∀ i ∈ n.Interfaces, SpecIntfOK env i) →
      (n.Interfaces.filter (fun i => i.SnmpPrimary = "P")).length ≤ 1 →
      (n.Interfaces.map (fun i => i.IPAddress)).Nodup →
      (n.validateInterfaces env).2 = none) ∧
    (∀ l1 i l2 err, n.Interfaces = l1 ++ i :: l2 → (∀ j ∈ l1, SpecIntfOK env j) →
      (i.IsValid env).2 = some err →
      (n.validateInterfaces env).2 = some err) := by
  refine ⟨?_, ?_, ?_⟩
  · intro ip hall hp hd
    rw [validateInterfaces_eq_of_intfs_ok env n hall]
    simp [Nat.not_lt.mpr hp, hd]
  · intro hall hp hd
    rw [validateInterfaces_eq_of_ok env n hall hp
      ((firstDup_eq_none_iff _).mpr hd)]
  · intro l1 i l2 err hsplit hok herr
    rw [RequisitionNode.validateInterfaces]
    have h := validateInterfaceList_append_err env l1 l2 i err hok herr
    rw [← hsplit] at h
    rcases hv : validateInterfaceList env n.Interfaces with ⟨l', e⟩
    rw [hv] at h
    simp only at h
    subst h
    simp [hv]

/-- C6 witness: two interfaces with the same address on node `n1` fail with
the duplicate-IP message naming `n1`; distinct addresses pass; the spec's
requisition-level scenario produces the wrapped duplicate-IP error. -/
theorem claim_C6_duplicate_ip_detection_witness :
    (({ NodeLabel := "n1", ForeignID := "n1"
        Interfaces := [{ IPAddress := "10.0.0.1" }, { IPAddress := "10.0.0.1" }] } :
      RequisitionNode).validateInterfaces envNoFqdn).2 =
      some ("IP Address 10.0.0.1 is defined more than once on node n1") ∧
    (({ NodeLabel := "n1", ForeignID := "n1"
        Interfaces := [{ IPAddress := "10.0.0.1" }, { IPAddress := "10.0.0.2" }] } :
      RequisitionNode).validateInterfaces envNoFqdn).2 = none ∧
    (testReqDupIP.IsValid envNoFqdn).2 =
      some ("Problem on node n1 on requisition Test: IP Address 10.0.0.1 is defined more than once on node n1") := by
  refine ⟨?_, ?_, ?_⟩
  · have h := (claim_C6_duplicate_ip_detection envNoFqdn
      { NodeLabel := "n1", ForeignID := "n1"
        Interfaces := [{ IPAddress := "10.0.0.1" }, { IPAddress := "10.0.0.1" }] }).1
      ("10.0.0.1") (by decide) (by decide) (by decide)
    rw [h]
    decide
  · exact (claim_C6_duplicate_ip_detection envNoFqdn
      { NodeLabel := "n1", ForeignID := "n1"
        Interfaces := [{ IPAddress := "10.0.0.1" }, { IPAddress := "10.0.0.2" }] }).2.1
      (by decide) (by decide) (by decide)
  · decide

/-- C7: with every interface individually valid, two or more interfaces
flagged `snmpPrimary="P"` (as supplied) make `validateInterfaces` fail with
the more-than-one-primary message naming the node; with exactly one primary
flag (and distinct addresses) the check passes. -/
theorem claim_C7_at_most_one_primary (env : NetEnv) (n : RequisitionNode) :
    ((∀ i ∈ n.Interfaces, SpecIntfOK env i) →
      2 ≤ (n.Interfaces.filter (fun i => i.SnmpPrimary = "P")).length →
      (n.validateInterfaces env).2 =
        some ("Node " ++ n.NodeLabel ++ " cannot have more than one primary interface")) ∧
    ((∀ i ∈ n.Interfaces, SpecIntfOK env i) →
      (n.Interfaces.filter (fun i => i.SnmpPrimary = "P")).length = 1 →
      (n.Interfaces.map (fun i => i.IPAddress)).Nodup →
      (n.validateInterfaces env).2 = none) := by
  constructor
  · intro hall hp
    rw [validateInterfaces_eq_of_intfs_ok env n hall]
    simp [Nat.lt_of_lt_of_le Nat.one_lt_two hp]
  · intro hall hp hd
    rw [validateInterfaces_eq_of_ok env n hall (Nat.le_of_eq hp)
      ((firstDup_eq_none_iff _).mpr hd)]

/-- C7 witness: two primary interfaces are rejected with the message naming
the node; exactly one primary passes. -/
theorem claim_C7_at_most_one_primary_witness :
    (({ NodeLabel := "n1", ForeignID := "n1"
        Interfaces := [{ IPAddress := "10.0.0.1", SnmpPrimary := "P" },
                       { IPAddress := "10.0.0.2", SnmpPrimary := "P" }] } :
      RequisitionNode).validateInterfaces envNoFqdn).2 =
      some ("Node n1 cannot have more than one primary interface") ∧
    (({ NodeLabel := "n1", ForeignID := "n1"
        Interfaces := [{ IPAddress := "10.0.0.1", SnmpPrimary := "P" },
                       { IPAddress := "10.0.0.2", SnmpPrimary := "S" }] } :
      RequisitionNode).validateInterfaces envNoFqdn).2 = none := by
  constructor
  · have h := (claim_C7_at_most_one_primary envNoFqdn
      { NodeLabel := "n1", ForeignID := "n1"
        Interfaces := [{ IPAddress := "10.0.0.1", SnmpPrimary := "P" },
                       { IPAddress := "10.0.0.2", SnmpPrimary := "P" }] }).1
      (by decide) (by decide)
    rw [h]
    decide
  · exact (claim_C7_at_most_one_primary envNoFqdn
      { NodeLabel := "n1", ForeignID := "n1"
        Interfaces := [{ IPAddress := "10.0.0.1", SnmpPrimary := "P" },
                       { IPAddress := "10.0.0.2", SnmpPrimary := "S" }] }).2
      (by decide) (by decide) (by decide)

/-- C8: after the foreign-ID checks, a node with both parent references set
fails with the mutual-exclusion message; a node whose parent node label
equals its own (defaulted) label — reachable when the parent foreign ID is
empty — fails with the label self-reference message; a node whose parent
foreign ID equals its own foreign ID — reachable when the parent node label
is empty — fails with the foreign-ID self-reference message. -/
theorem claim_C8_parent_reference_checks (env : NetEnv) (n : RequisitionNode)
    (h1 : n.ForeignID ≠ "") (h2 : hasForbiddenChars n.ForeignID = false) :
    (n.ParentForeignID ≠ "" → n.ParentNodeLabel ≠ "" →
      n.IsValid env = (normLabel n,
        some ("Cannot set both parent foreign ID and parent node label on node "
          ++ (normLabel n).NodeLabel ++ ", choose one"))) ∧
    (n.ParentForeignID = "" →
      n.ParentNodeLabel = (if n.NodeLabel = "" then n.ForeignID else n.NodeLabel) →
      n.IsValid env = (normLabel n,
        some ("The parent node cannot be the node itself. The parent-nodel-label has to be different than the node-label"))) ∧
    (n.ParentNodeLabel = "" → n.ParentForeignID = n.ForeignID →
      n.IsValid env = (normLabel n,
        some ("The parent node cannot be the node itself. The parent-foreign-id has to be different than the foreign-id"))) := by
  obtain ⟨lbl, fid, loc, city, bld, pfs, pfid, pnl, intfs, cats, assets, md⟩ := n
  simp only at h1 h2
  refine ⟨?_, ?_, ?_⟩
  · intro hp1 hp2
    simp only at hp1 hp2
    rw [RequisitionNode.IsValid, normLabel]
    by_cases hl : lbl = "" <;> simp [h1, h2, hp1, hp2, hl]
  · intro hp1 hp2
    simp only at hp1 hp2
    rw [RequisitionNode.IsValid, normLabel]
    by_cases hl : lbl = ""
    · subst hl
      simp at hp2
      simp [h1, h2, hp1, hp2]
    · rw [if_neg hl] at hp2
      simp [h1, h2, hp1, hp2, hl]
  · intro hp1 hp2
    simp only at hp1 hp2
    rw [RequisitionNode.IsValid, normLabel]
    by_cases hl : lbl = ""
    · subst hl
      simp [h1, h2, hp1, hp2, Ne.symm h1]
    · simp [h1, h2, hp1, hp2, hl, Ne.symm hl]

/-- C8 witness: the three parent-reference failures at concrete nodes. -/
theorem claim_C8_parent_reference_checks_witness :
    ({ ForeignID := "n1", ParentForeignID := "p1", ParentNodeLabel := "p2" } :
      RequisitionNode).IsValid envNoFqdn =
      ({ ForeignID := "n1", NodeLabel := "n1", ParentForeignID := "p1",
         ParentNodeLabel := "p2" },
        some ("Cannot set both parent foreign ID and parent node label on node n1, choose one")) ∧
    ({ ForeignID := "n1", ParentNodeLabel := "n1" } : RequisitionNode).IsValid envNoFqdn =
      ({ ForeignID := "n1", NodeLabel := "n1", ParentNodeLabel := "n1" },
        some ("The parent node cannot be the node itself. The parent-nodel-label has to be different than the node-label")) ∧
    ({ ForeignID := "n1", ParentForeignID := "n1" } : RequisitionNode).IsValid envNoFqdn =
      ({ ForeignID := "n1", NodeLabel := "n1", ParentForeignID := "n1" },
        some ("The parent node cannot be the node itself. The parent-foreign-id has to be different than the foreign-id")) := by
  refine ⟨?_, ?_, ?_⟩
  · have h := (claim_C8_parent_reference_checks envNoFqdn
      { ForeignID := "n1", ParentForeignID := "p1", ParentNodeLabel := "p2" }
      (by decide) (by decide)).1 (by decide) (by decide)
    rw [h]
    decide
  · have h := (claim_C8_parent_reference_checks envNoFqdn
      { ForeignID := "n1", ParentNodeLabel := "n1" }
      (by decide) (by decide)).2.1 rfl (by decide)
    rw [h]
    decide
  · have h := (claim_C8_parent_reference_checks envNoFqdn
      { ForeignID := "n1", ParentForeignID := "n1" }
      (by decide) (by decide)).2.2 rfl rfl
    rw [h]
    decide

/-- C9: the duplicate-address check of `validateInterfaces` counts the
addresses as supplied, before validation rewrites them — two distinct
hostnames resolving to the same literal address pass (and both end up
rewritten to that address), while the same hostname supplied twice is
reported as a duplicate of the original string. -/
theorem claim_C9_duplicates_counted_pre_resolution (env : NetEnv)
    (h1 h2 a : String) (rest1 : List String) (n : RequisitionNode)
    (hne1 : h1 ≠ "")
    (hf : env.AllowFqdnOnRequisitionedInterfaces = true)
    (hp1 : env.ParseIP h1 = false) (hl1 : env.LookupIP h1 = some (a :: rest1)) :
    (∀ rest2, h1 ≠ h2 → h2 ≠ "" → env.ParseIP h2 = false →
      env.LookupIP h2 = some (a :: rest2) →
      n.Interfaces = [{ IPAddress := h1 }, { IPAddress := h2 }] →
      n.validateInterfaces env =
        ({ n with Interfaces := [{ IPAddress := a, SnmpPrimary := "N", Status := 1 },
                                 { IPAddress := a, SnmpPrimary := "N", Status := 1 }] },
          none)) ∧
    (n.Interfaces = [{ IPAddress := h1 }, { IPAddress := h1 }] →
      (n.validateInterfaces env).2 =
        some ("IP Address " ++ h1 ++ " is defined more than once on node "
          ++ n.NodeLabel)) := by
  have ok1 : SpecIntfOK env { IPAddress := h1 } :=
    ⟨hne1, Or.inl rfl, Or.inl rfl, Or.inr ⟨hf, a, rest1, hl1⟩,
      by simp, by simp [firstDup], by simp⟩
  constructor
  · intro rest2 hne hne2 hp2 hl2 hi
    have ok2 : SpecIntfOK env { IPAddress := h2 } :=
      ⟨hne2, Or.inl rfl, Or.inl rfl, Or.inr ⟨hf, a, rest2, hl2⟩,
        by simp, by simp [firstDup], by simp⟩
    have hall : ∀ i ∈ n.Interfaces, SpecIntfOK env i := by
      rw [hi]
      intro i him
      simp at him
      rcases him with rfl | rfl
      · exact ok1
      · exact ok2
    have hprim : (n.Interfaces.filter (fun i => i.SnmpPrimary = "P")).length ≤ 1 := by
      rw [hi]
      have hz : (([{ IPAddress := h1 }, { IPAddress := h2 }] :
          List RequisitionInterface).filter (fun i => i.SnmpPrimary = "P")).length = 0 := rfl
      omega
    have hdup : firstDup (n.Interfaces.map (fun i => i.IPAddress)) = none := by
      rw [hi]
      simpa using firstDup_pair_ne h1 h2 hne
    rw [validateInterfaces_eq_of_ok env n hall hprim hdup, hi]
    simp [normIntf, resolvedIP, hp1, hp2, hl1, hl2]
  · intro hi
    have hall : ∀ i ∈ n.Interfaces, SpecIntfOK env i := by
      rw [hi]
      intro i him
      simp at him
      rcases him with rfl | rfl
      all_goals exact ok1
    rw [validateInterfaces_eq_of_intfs_ok env n hall, hi]
    have hz : (([{ IPAddress := h1 }, { IPAddress := h1 }] :
        List RequisitionInterface).filter (fun i => i.SnmpPrimary = "P")).length = 0 := rfl
    have hm : (([{ IPAddress := h1 }, { IPAddress := h1 }] :
        List RequisitionInterface).map (fun i => i.IPAddress)) = [h1, h1] := rfl
    rw [hz, hm, firstDup_pair_self h1]
    simp

/-- C9 witness: `a.example` and `b.example` both resolve to `10.9.9.9` yet
pass the duplicate check (both rewritten to the same literal), while
`a.example` twice is reported as a duplicate of the hostname string. -/
theorem claim_C9_duplicates_counted_pre_resolution_witness :
    ({ NodeLabel := "n1", ForeignID := "n1"
       Interfaces := [{ IPAddress := "a.example" }, { IPAddress := "b.example" }] } :
      RequisitionNode).validateInterfaces envTwoHosts =
      ({ NodeLabel := "n1", ForeignID := "n1"
         Interfaces := [{ IPAddress := "10.9.9.9", SnmpPrimary := "N", Status := 1 },
                        { IPAddress := "10.9.9.9", SnmpPrimary := "N", Status := 1 }] },
        none) ∧
    (({ NodeLabel := "n1", ForeignID := "n1"
        Interfaces := [{ IPAddress := "a.example" }, { IPAddress := "a.example" }] } :
      RequisitionNode).validateInterfaces envTwoHosts).2 =
      some ("IP Address a.example is defined more than once on node n1") := by
  constructor
  · exact (claim_C9_duplicates_counted_pre_resolution envTwoHosts
      ("a.example") ("b.example") ("10.9.9.9") []
      { NodeLabel := "n1", ForeignID := "n1"
        Interfaces := [{ IPAddress := "a.example" }, { IPAddress := "b.example" }] }
      (by decide) rfl (by decide) (by decide)).1 []
      (by decide) (by decide) (by decide) (by decide) rfl
  · have h := (claim_C9_duplicates_counted_pre_resolution envTwoHosts
      ("a.example") ("b.example") ("10.9.9.9") []
      { NodeLabel := "n1", ForeignID := "n1"
        Interfaces := [{ IPAddress := "a.example" }, { IPAddress := "a.example" }] }
      (by decide) rfl (by decide) (by decide)).2 rfl
    rw [h]
    decide
